import Mathlib

/-!
# OptixTutorialApp: a shallow embedding of `src/OptixTutorialApp.cpp`

The program is sequential glue around a ray-tracing engine and a windowing
toolkit.  The embedding records every call the program makes on those libraries
in a trace, in program order, and allocates a fresh handle for every object a
library call creates.  Numbers of C++ type `float` are elements of a type `F`
with the arithmetic the code uses; scene functions are stated over a field `F`,
`rand_range` over any type with `+`, `-` and `*`, so that it can be read both in
exact arithmetic and in IEEE-754 binary32 (`Float32` below).

Every library call is taken to return: the exceptions the engine can throw are not part of
the source.  Library functions that the file calls but does not define (`rnd`, `cosf`,
`sinf`, `sqrtf`, `logf`, `sutil::calculateCameraVariables`, the asset directory,
the window queries) are fields of `Env`.
-/

namespace OptixTutorial

/-! ## Vectors (`optixu_math`) -/

/-- The three-component vector type `float3`. -/
structure float3 (F : Type) where
  x : F
  y : F
  z : F

/-- The four-component vector type `float4`. -/
structure float4 (F : Type) where
  x : F
  y : F
  z : F
  w : F

def make_float3 {F : Type} (x y z : F) : float3 F := ⟨x, y, z⟩

/-- The overload `make_float4( float3, float )`. -/
def make_float4 {F : Type} (v : float3 F) (w : F) : float4 F := ⟨v.x, v.y, v.z, w⟩

instance {F : Type} [Add F] : Add (float3 F) := ⟨fun a b => ⟨a.x + b.x, a.y + b.y, a.z + b.z⟩⟩

/-- The product `float3 * float`. -/
def float3.scale {F : Type} [Mul F] (a : float3 F) (s : F) : float3 F := ⟨a.x * s, a.y * s, a.z * s⟩

def dot {F : Type} [Add F] [Mul F] (a b : float3 F) : F := a.x * b.x + a.y * b.y + a.z * b.z

def cross {F : Type} [Sub F] [Mul F] (a b : float3 F) : float3 F :=
  ⟨a.y * b.z - a.z * b.y, a.z * b.x - a.x * b.z, a.x * b.y - a.y * b.x⟩

/-- The function `normalize( v )` is `v * (1 / sqrtf( dot( v, v ) ))`. -/
def normalize {F : Type} [Field F] (sqrt : F → F) (v : float3 F) : float3 F :=
  v.scale (1 / sqrt (dot v v))

/-! ## The environment -/

/-- A Cinder camera, as far as `updateCamera` reads it. -/
structure Camera (F : Type) where
  getFov : F
  getAspectRatio : F
  getEyePoint : float3 F
  getViewDirection : float3 F

/-- Functions and values the program takes from its libraries and its platform. -/
structure Env (F : Type) where
  /-- The string `ci::app::getAssetDirectories()[0].string()`. -/
  assetDir : String
  /-- The generator `rnd( seed )` of `random.h`: the value returned and the updated seed. -/
  rnd : Nat → F × Nat
  cos : F → F
  sin : F → F
  sqrt : F → F
  log : F → F
  /-- The constant `M_PIf`. -/
  pi : F
  /-- The function `sutil::calculateCameraVariables`, returning `( U, V, W )`. -/
  calculateCameraVariables : float3 F → float3 F → float3 F → F → F → Bool → float3 F × float3 F × float3 F
  /-- The value of `sizeof( BasicLight )`. -/
  sizeofBasicLight : Nat
  /-- The window queries, at the time of the call. -/
  getWindowAspectRatio : F
  getWindowWidth : Int
  getWindowHeight : Int
  /-- The value of `( int )getAverageFps()`, at the time of the call. -/
  getAverageFps : Int
  /-- The camera after `setPerspective( verticalFovDegrees, aspectRatio, nearPlane, farPlane )`. -/
  setPerspective : Camera F → F → F → F → F → Camera F
  /-- The camera after `lookAt( eyePoint, target )`. -/
  lookAt : Camera F → float3 F → float3 F → Camera F

/-! ## Decimal output of an `int` (`std::ostream::operator<<`) -/

/-- The decimal digits of a natural number, most significant first; `fuel` bounds the
number of digits and `n + 1` always suffices. -/
def decimalDigits : Nat → Nat → List Char
  | 0, _ => []
  | fuel + 1, n =>
    if n < 10 then [Nat.digitChar n] else decimalDigits fuel (n / 10) ++ [Nat.digitChar (n % 10)]

/-- The text `ss << n` appends for an `int n`: a minus sign for a negative number, then the
decimal digits of its magnitude. -/
def decimal (n : Int) : String :=
  if n < 0 then String.mk ('-' :: decimalDigits (n.natAbs + 1) n.natAbs)
  else String.mk (decimalDigits (n.natAbs + 1) n.natAbs)

/-! ## Helper functions -/

/-- Source lines 59-62. -/
def ptxPath {F : Type} (env : Env F) (cuda_file : String) : String :=
  env.assetDir ++ "/ptx/" ++ cuda_file ++ ".ptx"

/-- Source lines 161-166. -/
def make_plane {F : Type} [Field F] (sqrt : F → F) (n p : float3 F) : float4 F :=
  let n := normalize sqrt n
  let d := -dot n p
  make_float4 n d

/-! ## The trace of library calls -/

/-- One call on the ray-tracing engine or the windowing toolkit.  Objects are named by the
handle (a number) the creating call returned; a handle argument of type `Option Nat` is a
handle variable that may be null.  A variable of the context itself has owner `none`, a
variable of a scene object has the object's handle as owner. -/
inductive Call (F : Type) where
  | contextCreate (result : Nat)
  | setRayTypeCount (n : Nat)
  | setEntryPointCount (n : Nat)
  | setStackSize (n : Nat)
  | setInt (owner : Option Nat) (name : String) (v : Int)
  | setUint (owner : Option Nat) (name : String) (v : Nat)
  | setFloat (owner : Option Nat) (name : String) (v : List F)
  | set (owner : Option Nat) (name : String) (object : Nat)
  | setBuffer (owner : Option Nat) (name : String) (buffer : Nat)
  | setTextureSampler (owner : Option Nat) (name : String) (sampler : Nat)
  | createOutputBuffer (format : String) (width height : Nat) (use_pbo : Bool) (result : Nat)
  | createProgramFromPTXFile (ptx entry : String) (result : Nat)
  | setRayGenerationProgram (entryPoint program : Nat)
  | setExceptionProgram (entryPoint program : Nat)
  | setMissProgram (rayType program : Nat)
  | loadTexture (path : String) (default_color : float3 F) (result : Nat)
  | createBuffer (type : String) (format : Option String) (dims : List Nat) (result : Nat)
  | setFormat (buffer : Nat) (format : String)
  | setElementSize (buffer size : Nat)
  | setSize (buffer size : Nat)
  | map (buffer : Nat)
  | unmap (buffer : Nat)
  | writeFloat (buffer index : Nat) (v : F)
  | writeFloat4 (buffer index : Nat) (v : float4 F)
  | writeLight (buffer index : Nat) (pos color : float3 F) (casts_shadow : Int)
  | createTextureSampler (result : Nat)
  | setWrapMode (sampler dim : Nat) (mode : String)
  | setFilteringModes (sampler : Nat) (minification magnification mipmapping : String)
  | setIndexingMode (sampler : Nat) (mode : String)
  | setReadMode (sampler : Nat) (mode : String)
  | setMaxAnisotropy (sampler : Nat) (v : F)
  | setMipLevelCount (sampler n : Nat)
  | setArraySize (sampler n : Nat)
  | samplerSetBuffer (sampler textureArrayIdx mipLevel buffer : Nat)
  | createGeometry (result : Nat)
  | setPrimitiveCount (geometry n : Nat)
  | setBoundingBoxProgram (geometry program : Nat)
  | setIntersectionProgram (geometry program : Nat)
  | createMaterial (result : Nat)
  | setClosestHitProgram (material rayType program : Nat)
  | setAnyHitProgram (material rayType program : Nat)
  | createGeometryInstance (geometry : Option Nat) (materials : List (Option Nat)) (result : Nat)
  | createGeometryGroup (result : Nat)
  | setChildCount (group n : Nat)
  | setChild (group index child : Nat)
  | createAcceleration (builder : String) (result : Nat)
  | setAcceleration (group acceleration : Nat)
  | validate
  | launch (entryPoint width height : Nat)
  | resizeBuffer (buffer width height : Nat)
  | enableVerticalSync (enabled : Bool)
  | textureCreate (dataFormat dataType : String) (width height : Nat) (result : Nat)
  | textureUpdate (texture : Option Nat) (mappedBuffer : Nat) (dataFormat dataType : String)
      (mipLevel width height : Nat)
  | camUiSetCamera
  | camUiConnect
  | setTitle (title : String)
  | setMatricesWindow
  | clear
  | draw (texture : Option Nat)

/-- The state of the program: the globals of the file, the members of the application
object, the static seed of `rand_range`, and the trace of the calls made so far. -/
structure World (F : Type) where
  /-- The next unused object handle. -/
  next : Nat
  trace : List (Call F)
  /-- The variable `static unsigned int seed` of `rand_range`. -/
  seed : Nat
  width : Nat
  height : Nat
  use_pbo : Bool
  texture_path : String
  tutorial_ptx_path : String
  tutorial_number : Int
  mTexture : Option Nat
  mCam : Camera F

/-- The state when the program starts (source lines 30-37). -/
def World.init {F : Type} (env : Env F) (cam : Camera F) : World F where
  next := 0
  trace := []
  seed := 0
  width := 1080
  height := 720
  use_pbo := false
  texture_path := env.assetDir ++ "/textures"
  tutorial_ptx_path := ""
  tutorial_number := 10
  mTexture := none
  mCam := cam

/-- A computation on the program state.  It returns no result when the program reads outside
a container or reads a variable that was never bound. -/
def Run (F : Type) (α : Type) : Type := World F → Option (α × World F)

/-- Sequencing: the second computation starts in the state the first one left. -/
@[noinline]
def Run.bind {F α β : Type} (x : Run F α) (f : α → Run F β) : Run F β :=
  fun w =>
    match x w with
    | none => none
    | some (a, w1) => f a w1

instance {F : Type} : Monad (Run F) where
  pure a := fun w => some (a, w)
  bind := Run.bind

/-- The current state. -/
def getWorld {F : Type} : Run F (World F) := fun w => some (w, w)

/-- Replace the state. -/
def setWorld {F : Type} (w : World F) : Run F Unit := fun _ => some ((), w)

/-- A read outside a container, or of a variable that was never bound. -/
def fail {F α : Type} : Run F α := fun _ => none

/-- Record a call. -/
def call {F : Type} (c : Call F) : Run F Unit :=
  fun w => some ((), { w with trace := w.trace ++ [c] })

/-- Record a call that creates an object and return the new object's handle. -/
def create {F : Type} (c : Nat → Call F) : Run F Nat :=
  fun w => some (w.next, { w with next := w.next + 1, trace := w.trace ++ [c w.next] })

/-- The element `v[i]` of a `std::vector`. -/
def index {F α : Type} (v : List α) (i : Nat) : Run F α :=
  match v[i]? with
  | some a => pure a
  | none => fail

/-- The objects bound to variable `name` of `owner` by `set` or `setBuffer`, in order. -/
def bindings {F : Type} (owner : Option Nat) (name : String) (t : List (Call F)) : List Nat :=
  t.filterMap fun
    | .set o n b => if o = owner ∧ n = name then some b else none
    | .setBuffer o n b => if o = owner ∧ n = name then some b else none
    | _ => none

/-- The object last bound to variable `name` of `owner`. -/
def boundBuffer {F : Type} (owner : Option Nat) (name : String) (t : List (Call F)) : Option Nat :=
  (bindings owner name t).getLast?

/-- The call `context[ name ]->getBuffer()`. -/
def getBuffer {F : Type} (name : String) : Run F Nat := do
  match boundBuffer none name (← getWorld).trace with
  | some b => pure b
  | none => fail

/-! ## The program names selected by the tutorial number -/

/-- The value of `camera_name` (source line 109). -/
def camera_name (tutorial_number : Int) : String :=
  if tutorial_number ≥ 11 then "env_camera" else "pinhole_camera"

/-- The value of `miss_name` (source line 121). -/
def miss_name (tutorial_number : Int) : String :=
  if tutorial_number ≥ 5 then "envmap_miss" else "miss"

/-- The value of `box_chname` (source lines 235-246). -/
def box_chname (tutorial_number : Int) : String :=
  if tutorial_number ≥ 8 then "box_closest_hit_radiance"
  else if tutorial_number ≥ 3 then "closest_hit_radiance3"
  else if tutorial_number ≥ 2 then "closest_hit_radiance2"
  else if tutorial_number ≥ 1 then "closest_hit_radiance1"
  else "closest_hit_radiance0"

/-- The value of `floor_chname` (source lines 261-276). -/
def floor_chname (tutorial_number : Int) : String :=
  if tutorial_number ≥ 7 then "floor_closest_hit_radiance"
  else if tutorial_number ≥ 6 then "floor_closest_hit_radiance5"
  else if tutorial_number ≥ 4 then "floor_closest_hit_radiance4"
  else if tutorial_number ≥ 3 then "closest_hit_radiance3"
  else if tutorial_number ≥ 2 then "closest_hit_radiance2"
  else if tutorial_number ≥ 1 then "closest_hit_radiance1"
  else "closest_hit_radiance0"

/-- The value of `glass_ahname` (source line 300). -/
def glass_ahname (tutorial_number : Int) : String :=
  if tutorial_number ≥ 10 then "glass_any_hit_shadow" else "any_hit_shadow"

/-! ## Binary32 arithmetic

The type `float` of the program is IEEE-754 binary32 with rounding to nearest, ties to even.
`Float32` is that arithmetic for `+`, `-`, `*` and `<=`, so that `rand_range` can be
evaluated with the rounding and the overflow of the machine. -/

set_option exponentiation.threshold 1000

/-- An IEEE-754 binary32 value.  A finite value is `k * 2 ^ (-149)` for an integer `k`; the
sign of zero is not represented. -/
inductive Float32 where
  | finite (k : Int)
  | inf (negative : Bool)
  | nan
deriving DecidableEq

namespace Float32

/-- The position of the leading binary digit of `a`, zero for `a = 0`; `fuel` bounds the
number of digits and `a` always suffices. -/
def ilog2 : Nat → Nat → Nat
  | 0, _ => 0
  | fuel + 1, a => if a < 2 then 0 else ilog2 fuel (a / 2) + 1

/-- Round the exact value `n * 2 ^ (-(149 + s))` to the nearest binary32 value, ties to even:
24 significant bits, least quantum `2 ^ (-149)`, overflow to infinity from `2 ^ 128`. -/
def round (s : Nat) (n : Int) : Float32 :=
  let a := n.natAbs
  let shift := max s (ilog2 a a - 23)
  let q := a / 2 ^ shift
  let rem := a % 2 ^ shift
  let q1 := if 2 * rem > 2 ^ shift ∨ (2 * rem = 2 ^ shift ∧ q % 2 = 1) then q + 1 else q
  let m := q1 * 2 ^ (shift - s)
  if m ≥ 2 ^ 277 then inf (decide (n < 0))
  else finite (if n < 0 then -(m : Int) else (m : Int))

/-- The negation `-a`. -/
def neg : Float32 → Float32
  | finite k => finite (-k)
  | inf s => inf (!s)
  | nan => nan

/-- The sum `a + b`, rounded. -/
def add : Float32 → Float32 → Float32
  | finite a, finite b => round 0 (a + b)
  | finite _, inf s => inf s
  | inf s, finite _ => inf s
  | inf s, inf t => if s = t then inf s else nan
  | _, _ => nan

/-- The product `a * b`, rounded. -/
def mul : Float32 → Float32 → Float32
  | finite a, finite b => round 149 (a * b)
  | finite a, inf s => if a = 0 then nan else inf (s != decide (a < 0))
  | inf s, finite b => if b = 0 then nan else inf (s != decide (b < 0))
  | inf s, inf t => inf (s != t)
  | _, _ => nan

/-- The comparison `a <= b`, false when either side is not a number. -/
def le : Float32 → Float32 → Bool
  | finite a, finite b => decide (a ≤ b)
  | finite _, inf s => !s
  | inf s, finite _ => s
  | inf s, inf t => s || !t
  | _, _ => false

instance : Zero Float32 := ⟨finite 0⟩
instance : One Float32 := ⟨finite (2 ^ 149)⟩
instance : Add Float32 := ⟨add⟩
instance : Sub Float32 := ⟨fun a b => add a (neg b)⟩
instance : Mul Float32 := ⟨mul⟩
instance : LE Float32 := ⟨fun a b => le a b = true⟩
instance (a b : Float32) : Decidable (a ≤ b) := inferInstanceAs (Decidable (le a b = true))

/-- The largest finite value, `FLT_MAX`. -/
def fltMax : Float32 := finite ((2 ^ 24 - 1) * 2 ^ 253)

/-- A finite binary32 number: a finite value that rounding leaves unchanged. -/
def valid : Float32 → Prop
  | finite k => round 0 k = finite k
  | _ => False

instance (a : Float32) : Decidable a.valid := by
  cases a <;> unfold valid <;> infer_instance

end Float32

/-! ## `rand_range` and `createContext` -/

/-- Source lines 18-22, as a function of the seed: the value returned and the seed that
`rnd` leaves behind. -/
def rand_range {F : Type} [Add F] [Sub F] [Mul F] (rnd : Nat → F × Nat) (min max : F)
    (seed : Nat) : F × Nat :=
  let r := rnd seed
  (min + (max - min) * r.1, r.2)

/-- A call of `rand_range` in the program: it reads and updates the static seed. -/
def rand_rangeM {F : Type} [Add F] [Sub F] [Mul F] (rnd : Nat → F × Nat) (min max : F) :
    Run F F := do
  let w ← getWorld
  let r := rand_range rnd min max w.seed
  setWorld { w with seed := r.2 }
  pure r.1

/-- The loop of source lines 138-141, `i` iterations from the write position `tex_data`
(an offset into the mapped noise buffer, in elements). -/
def noiseLoop {F : Type} [Zero F] [One F] [Add F] [Sub F] [Mul F] (rnd : Nat → F × Nat)
    (noiseBuffer : Nat) : (i : Nat) → (tex_data : Nat) → Run F Unit
  | 0, _ => pure ()
  | i + 1, tex_data => do
    let v ← rand_rangeM rnd 0 1
    call (.writeFloat noiseBuffer tex_data v)
    noiseLoop rnd noiseBuffer i (tex_data + 1)

/-- Source lines 77-159. -/
def createContext {F : Type} [Field F] (env : Env F) : Run F Unit := do
  -- Set up context
  let _context ← create .contextCreate
  call (.setRayTypeCount 2)
  call (.setEntryPointCount 1)
  call (.setStackSize 4640)
  call (.setInt none "max_depth" 100)
  call (.setUint none "radiance_ray_type" 0)
  call (.setUint none "shadow_ray_type" 1)
  call (.setFloat none "scene_epsilon" [1.e-4])
  call (.setFloat none "importance_cutoff" [0.01])
  call (.setFloat none "ambient_light_color" [0.31, 0.33, 0.28])
  -- Output buffer
  let w ← getWorld
  let buffer ← create (.createOutputBuffer "RT_FORMAT_UNSIGNED_BYTE4" w.width w.height w.use_pbo)
  call (.set none "output_buffer" buffer)
  -- Ray generation program
  let ray_gen_program ← create
    (.createProgramFromPTXFile w.tutorial_ptx_path (camera_name w.tutorial_number))
  call (.setRayGenerationProgram 0 ray_gen_program)
  -- Exception program
  let exception_program ← create (.createProgramFromPTXFile w.tutorial_ptx_path "exception")
  call (.setExceptionProgram 0 exception_program)
  call (.setFloat none "bad_color" [1.0, 0.0, 1.0])
  -- Miss program
  let miss_program ← create
    (.createProgramFromPTXFile w.tutorial_ptx_path (miss_name w.tutorial_number))
  call (.setMissProgram 0 miss_program)
  let default_color : float3 F := make_float3 1.0 1.0 1.0
  let texpath := w.texture_path ++ "/" ++ "CedarCity.hdr"
  let envmap ← create (.loadTexture texpath default_color)
  call (.setTextureSampler none "envmap" envmap)
  call (.setFloat none "bg_color" [0.34, 0.55, 0.85])
  -- 3D solid noise buffer, 1 float channel
  let tex_width := 64
  let tex_height := 64
  let tex_depth := 64
  let noiseBuffer ← create
    (.createBuffer "RT_BUFFER_INPUT" (some "RT_FORMAT_FLOAT") [tex_width, tex_height, tex_depth])
  call (.map noiseBuffer)
  noiseLoop env.rnd noiseBuffer (tex_width * tex_height * tex_depth) 0
  call (.unmap noiseBuffer)
  -- Noise texture sampler
  let noiseSampler ← create .createTextureSampler
  call (.setWrapMode noiseSampler 0 "RT_WRAP_REPEAT")
  call (.setWrapMode noiseSampler 1 "RT_WRAP_REPEAT")
  call (.setFilteringModes noiseSampler "RT_FILTER_LINEAR" "RT_FILTER_LINEAR" "RT_FILTER_NONE")
  call (.setIndexingMode noiseSampler "RT_TEXTURE_INDEX_NORMALIZED_COORDINATES")
  call (.setReadMode noiseSampler "RT_TEXTURE_READ_NORMALIZED_FLOAT")
  call (.setMaxAnisotropy noiseSampler 1.0)
  call (.setMipLevelCount noiseSampler 1)
  call (.setArraySize noiseSampler 1)
  call (.samplerSetBuffer noiseSampler 0 0 noiseBuffer)
  call (.setTextureSampler none "noise_texture" noiseSampler)

/-! ## `createGeometry` -/

/-- The components of a `float3`, as `setFloat( float3 )` passes them. -/
def float3.toList {F : Type} (v : float3 F) : List F := [v.x, v.y, v.z]

/-- The components of a `float4`, as `setFloat( float4 )` passes them. -/
def float4.toList {F : Type} (v : float4 F) : List F := [v.x, v.y, v.z, v.w]

/-- The handle variables of `createGeometry` when it returns. -/
structure GeometryLocals where
  box : Nat
  chull : Option Nat
  parallelogram : Nat
  box_matl : Nat
  floor_matl : Nat
  glass_matl : Option Nat
  gis : List Nat
  geometrygroup : Nat

/-- The loop of source lines 197-202, from index `i`; at most `fuel` iterations, and
`nsides - i` suffice. -/
def planeLoop {F : Type} [Field F] (env : Env F) (plane_buffer : Nat) (nsides : Nat)
    (radius : F) (xlate : float3 F) : (fuel : Nat) → (i : Nat) → Run F Unit
  | 0, _ => pure ()
  | fuel + 1, i =>
    if i < nsides then do
      let angle : F := (i : F) / (nsides : F) * env.pi * 2.0
      let x := env.cos angle
      let y := env.sin angle
      call (.writeFloat4 plane_buffer i
        (make_plane env.sqrt (make_float3 x 0 y) (make_float3 (x * radius) 0 (y * radius) + xlate)))
      planeLoop env plane_buffer nsides radius xlate fuel (i + 1)
    else pure ()

/-- Source lines 168-341.  The result is the value of the function's handle variables when
it returns. -/
def createGeometry {F : Type} [Field F] (env : Env F) : Run F GeometryLocals := do
  let w ← getWorld
  let box_ptx := ptxPath env "box.cu"
  let box_bounds ← create (.createProgramFromPTXFile box_ptx "box_bounds")
  let box_intersect ← create (.createProgramFromPTXFile box_ptx "box_intersect")
  -- Create box
  let box ← create .createGeometry
  call (.setPrimitiveCount box 1)
  call (.setBoundingBoxProgram box box_bounds)
  call (.setIntersectionProgram box box_intersect)
  call (.setFloat (some box) "boxmin" [-2.0, 0.0, -2.0])
  call (.setFloat (some box) "boxmax" [2.0, 7.0, 2.0])
  -- Create chull
  let mut chull : Option Nat := none
  if w.tutorial_number ≥ 9 then
    let c ← create .createGeometry
    chull := some c
    call (.setPrimitiveCount c 1)
    let chull_bounds ← create (.createProgramFromPTXFile w.tutorial_ptx_path "chull_bounds")
    call (.setBoundingBoxProgram c chull_bounds)
    let chull_intersect ← create (.createProgramFromPTXFile w.tutorial_ptx_path "chull_intersect")
    call (.setIntersectionProgram c chull_intersect)
    let plane_buffer ← create (.createBuffer "RT_BUFFER_INPUT" none [])
    call (.setFormat plane_buffer "RT_FORMAT_FLOAT4")
    let nsides : Nat := 6
    call (.setSize plane_buffer (nsides + 2))
    call (.map plane_buffer)
    let radius : F := 1
    let xlate : float3 F := make_float3 (-1.4) 0 (-3.7)
    planeLoop env plane_buffer nsides radius xlate nsides 0
    let min : F := 0.02
    let max : F := 3.5
    call (.writeFloat4 plane_buffer (nsides + 0)
      (make_plane env.sqrt (make_float3 0 (-1) 0) (make_float3 0 min 0 + xlate)))
    let angle : F := 5 / (nsides : F) * env.pi * 2
    call (.writeFloat4 plane_buffer (nsides + 1)
      (make_plane env.sqrt (make_float3 (env.cos angle) 0.7 (env.sin angle))
        (make_float3 0 max 0 + xlate)))
    call (.unmap plane_buffer)
    call (.setBuffer (some c) "planes" plane_buffer)
    call (.setFloat (some c) "chull_bbmin" [-radius + xlate.x, min + xlate.y, -radius + xlate.z])
    call (.setFloat (some c) "chull_bbmax" [radius + xlate.x, max + xlate.y, radius + xlate.z])
  -- Floor geometry
  let floor_ptx := ptxPath env "parallelogram.cu"
  let parallelogram ← create .createGeometry
  call (.setPrimitiveCount parallelogram 1)
  let bounds ← create (.createProgramFromPTXFile floor_ptx "bounds")
  call (.setBoundingBoxProgram parallelogram bounds)
  let intersect ← create (.createProgramFromPTXFile floor_ptx "intersect")
  call (.setIntersectionProgram parallelogram intersect)
  let anchor : float3 F := make_float3 (-64.0) 0.01 (-64.0)
  let v1 : float3 F := make_float3 128.0 0.0 0.0
  let v2 : float3 F := make_float3 0.0 0.0 128.0
  let normal := cross v2 v1
  let normal := normalize env.sqrt normal
  let d := dot normal anchor
  let v1 := v1.scale (1.0 / dot v1 v1)
  let v2 := v2.scale (1.0 / dot v2 v2)
  let plane := make_float4 normal d
  call (.setFloat (some parallelogram) "plane" plane.toList)
  call (.setFloat (some parallelogram) "v1" v1.toList)
  call (.setFloat (some parallelogram) "v2" v2.toList)
  call (.setFloat (some parallelogram) "anchor" anchor.toList)
  -- Materials
  let box_matl ← create .createMaterial
  let box_ch ← create
    (.createProgramFromPTXFile w.tutorial_ptx_path (box_chname w.tutorial_number))
  call (.setClosestHitProgram box_matl 0 box_ch)
  if w.tutorial_number ≥ 3 then
    let box_ah ← create (.createProgramFromPTXFile w.tutorial_ptx_path "any_hit_shadow")
    call (.setAnyHitProgram box_matl 1 box_ah)
  call (.setFloat (some box_matl) "Ka" [0.3, 0.3, 0.3])
  call (.setFloat (some box_matl) "Kd" [0.6, 0.7, 0.8])
  call (.setFloat (some box_matl) "Ks" [0.8, 0.9, 0.8])
  call (.setFloat (some box_matl) "phong_exp" [88])
  call (.setFloat (some box_matl) "reflectivity_n" [0.2, 0.2, 0.2])
  let floor_matl ← create .createMaterial
  let floor_ch ← create
    (.createProgramFromPTXFile w.tutorial_ptx_path (floor_chname w.tutorial_number))
  call (.setClosestHitProgram floor_matl 0 floor_ch)
  if w.tutorial_number ≥ 3 then
    let floor_ah ← create (.createProgramFromPTXFile w.tutorial_ptx_path "any_hit_shadow")
    call (.setAnyHitProgram floor_matl 1 floor_ah)
  call (.setFloat (some floor_matl) "Ka" [0.3, 0.3, 0.1])
  call (.setFloat (some floor_matl) "Kd" [194 / 255 * 0.6, 186 / 255 * 0.6, 151 / 255 * 0.6])
  call (.setFloat (some floor_matl) "Ks" [0.4, 0.4, 0.4])
  call (.setFloat (some floor_matl) "reflectivity" [0.1, 0.1, 0.1])
  call (.setFloat (some floor_matl) "reflectivity_n" [0.05, 0.05, 0.05])
  call (.setFloat (some floor_matl) "phong_exp" [88])
  call (.setFloat (some floor_matl) "tile_v0" [0.25, 0, 0.15])
  call (.setFloat (some floor_matl) "tile_v1" [-0.15, 0, 0.25])
  call (.setFloat (some floor_matl) "crack_color" [0.1, 0.1, 0.1])
  call (.setFloat (some floor_matl) "crack_width" [0.02])
  -- Glass material
  let mut glass_matl : Option Nat := none
  if chull.isSome then
    let glass_ch ← create (.createProgramFromPTXFile w.tutorial_ptx_path "glass_closest_hit_radiance")
    let glass_ah ← create
      (.createProgramFromPTXFile w.tutorial_ptx_path (glass_ahname w.tutorial_number))
    let m ← create .createMaterial
    glass_matl := some m
    call (.setClosestHitProgram m 0 glass_ch)
    call (.setAnyHitProgram m 1 glass_ah)
    call (.setFloat glass_matl "importance_cutoff" [1e-2])
    call (.setFloat glass_matl "cutoff_color" [0.34, 0.55, 0.85])
    call (.setFloat glass_matl "fresnel_exponent" [3.0])
    call (.setFloat glass_matl "fresnel_minimum" [0.1])
    call (.setFloat glass_matl "fresnel_maximum" [1.0])
    call (.setFloat glass_matl "refraction_index" [1.4])
    call (.setFloat glass_matl "refraction_color" [1.0, 1.0, 1.0])
    call (.setFloat glass_matl "reflection_color" [1.0, 1.0, 1.0])
    call (.setInt glass_matl "refraction_maxdepth" 100)
    call (.setInt glass_matl "reflection_maxdepth" 100)
    let extinction : float3 F := make_float3 0.80 0.89 0.75
    call (.setFloat glass_matl "extinction_constant"
      [env.log extinction.x, env.log extinction.y, env.log extinction.z])
    call (.setFloat glass_matl "shadow_attenuation" [0.4, 0.7, 0.4])
  -- Create GIs for each piece of geometry
  let mut gis : List Nat := []
  gis := gis ++ [← create (.createGeometryInstance (some box) [some box_matl])]
  gis := gis ++ [← create (.createGeometryInstance (some parallelogram) [some floor_matl])]
  if chull.isSome then
    gis := gis ++ [← create (.createGeometryInstance chull [glass_matl])]
  -- Place all in group
  let geometrygroup ← create .createGeometryGroup
  call (.setChildCount geometrygroup gis.length)
  call (.setChild geometrygroup 0 (← index gis 0))
  call (.setChild geometrygroup 1 (← index gis 1))
  if chull.isSome then
    call (.setChild geometrygroup 2 (← index gis 2))
  let acceleration ← create (.createAcceleration "NoAccel")
  call (.setAcceleration geometrygroup acceleration)
  call (.set none "top_object" geometrygroup)
  call (.set none "top_shadower" geometrygroup)
  pure { box, chull, parallelogram, box_matl, floor_matl, glass_matl, gis, geometrygroup }

/-! ## Lights, camera and the application callbacks -/

/-- Source lines 343-357. -/
def setupLights {F : Type} [Field F] (env : Env F) : Run F Unit := do
  let light_buffer ← create (.createBuffer "RT_BUFFER_INPUT" none [])
  call (.setFormat light_buffer "RT_FORMAT_USER")
  call (.setElementSize light_buffer env.sizeofBasicLight)
  call (.setSize light_buffer 1)
  call (.map light_buffer)
  call (.writeLight light_buffer 0 (make_float3 (-5.0) 60.0 (-16.0)) (make_float3 1.0 1.0 1.0) 1)
  call (.unmap light_buffer)
  call (.set none "lights" light_buffer)

/-- Source lines 359-379. -/
def updateCamera {F : Type} [Field F] (env : Env F) (cam : Camera F) : Run F Unit := do
  let vfov := cam.getFov
  let aspect_ratio := cam.getAspectRatio
  let camera_eye := cam.getEyePoint
  let camera_lookat := cam.getEyePoint + cam.getViewDirection.scale 10.0
  let (camera_u, camera_v, camera_w) :=
    env.calculateCameraVariables camera_eye camera_lookat (make_float3 0 1 0) vfov aspect_ratio true
  call (.setFloat none "eye" camera_eye.toList)
  call (.setFloat none "U" camera_u.toList)
  call (.setFloat none "V" camera_v.toList)
  call (.setFloat none "W" camera_w.toList)

/-- Source lines 419-446. -/
def setup {F : Type} [Field F] (env : Env F) : Run F Unit := do
  call (.enableVerticalSync false)
  let w ← getWorld
  setWorld { w with tutorial_number := 10 }
  -- set up path to ptx file associated with tutorial number
  let w ← getWorld
  let ss := "tutorial" ++ decimal w.tutorial_number ++ ".cu"
  setWorld { w with tutorial_ptx_path := ptxPath env ss }
  let w ← getWorld
  let texture ← create (.textureCreate "GL_BGRA" "GL_UNSIGNED_BYTE" w.width w.height)
  let w ← getWorld
  setWorld { w with mTexture := some texture }
  let w ← getWorld
  setWorld { w with mCam := env.setPerspective w.mCam 60 env.getWindowAspectRatio 0.1 1000.0 }
  let w ← getWorld
  setWorld { w with mCam := env.lookAt w.mCam (make_float3 7.0 9.2 (-6.0)) (make_float3 0.0 4.0 0.0) }
  call .camUiSetCamera
  call .camUiConnect
  createContext env
  let _ ← createGeometry env
  setupLights env
  call .validate

/-- The conversion of an `int` to `uint32_t`. -/
def toUint32 (n : Int) : Nat := (n % 2 ^ 32).toNat

/-- Source lines 448-456. -/
def resize {F : Type} [Field F] (env : Env F) : Run F Unit := do
  let w ← getWorld
  setWorld { w with width := toUint32 env.getWindowWidth }
  let w ← getWorld
  setWorld { w with height := toUint32 env.getWindowHeight }
  let w ← getWorld
  call (.resizeBuffer (← getBuffer "output_buffer") w.width w.height)
  let texture ← create (.textureCreate "GL_BGRA" "GL_UNSIGNED_BYTE" w.width w.height)
  let w ← getWorld
  setWorld { w with mTexture := some texture }
  let w ← getWorld
  setWorld { w with mCam := env.setPerspective w.mCam 60 env.getWindowAspectRatio 0.1 1000.0 }

/-- Source lines 458-469. -/
def update {F : Type} [Field F] (env : Env F) : Run F Unit := do
  call (.setTitle (decimal env.getAverageFps))
  let w ← getWorld
  updateCamera env w.mCam
  call (.launch 0 w.width w.height)
  let buffer ← getBuffer "output_buffer"
  call (.map buffer)
  call (.textureUpdate w.mTexture buffer "GL_BGRA" "GL_UNSIGNED_BYTE" 0 w.width w.height)
  call (.unmap buffer)

/-- Source lines 471-476. -/
def draw {F : Type} : Run F Unit := do
  call .setMatricesWindow
  call .clear
  call (.draw (← getWorld).mTexture)

/-! ## Reading a trace -/

/-- The calls a computation recorded: those of the final state `w1` after the calls of the
state `w` it started in. -/
def newCalls {F : Type} (w w1 : World F) : List (Call F) := w1.trace.drop w.trace.length

/-- The entry point name with which program `p` was created. -/
def entryOf {F : Type} (p : Nat) (t : List (Call F)) : Option String :=
  t.findSome? fun
    | .createProgramFromPTXFile _ entry r => if r = p then some entry else none
    | _ => none

/-- The entry points requested from module `ptx`, in order, one item a request. -/
def entryPoints {F : Type} (ptx : String) (t : List (Call F)) : List String :=
  t.filterMap fun
    | .createProgramFromPTXFile m entry _ => if m = ptx then some entry else none
    | _ => none

/-- The ray generation programs set: entry point index and the program's entry name. -/
def rayGenerationPrograms {F : Type} (t : List (Call F)) : List (Nat × Option String) :=
  t.filterMap fun
    | .setRayGenerationProgram i p => some (i, entryOf p t)
    | _ => none

/-- The exception programs set: entry point index and the program's entry name. -/
def exceptionPrograms {F : Type} (t : List (Call F)) : List (Nat × Option String) :=
  t.filterMap fun
    | .setExceptionProgram i p => some (i, entryOf p t)
    | _ => none

/-- The miss programs set: ray type and the program's entry name. -/
def missPrograms {F : Type} (t : List (Call F)) : List (Nat × Option String) :=
  t.filterMap fun
    | .setMissProgram i p => some (i, entryOf p t)
    | _ => none

/-- The closest-hit programs set on `material`: ray type and the program's entry name. -/
def closestHitPrograms {F : Type} (material : Nat) (t : List (Call F)) :
    List (Nat × Option String) :=
  t.filterMap fun
    | .setClosestHitProgram m i p => if m = material then some (i, entryOf p t) else none
    | _ => none

/-- The any-hit programs set on `material`: ray type and the program's entry name. -/
def anyHitPrograms {F : Type} (material : Nat) (t : List (Call F)) :
    List (Nat × Option String) :=
  t.filterMap fun
    | .setAnyHitProgram m i p => if m = material then some (i, entryOf p t) else none
    | _ => none

/-- The bounding box programs set on `geometry`, by entry name. -/
def boundingBoxPrograms {F : Type} (geometry : Nat) (t : List (Call F)) : List (Option String) :=
  t.filterMap fun
    | .setBoundingBoxProgram g p => if g = geometry then some (entryOf p t) else none
    | _ => none

/-- The intersection programs set on `geometry`, by entry name. -/
def intersectionPrograms {F : Type} (geometry : Nat) (t : List (Call F)) : List (Option String) :=
  t.filterMap fun
    | .setIntersectionProgram g p => if g = geometry then some (entryOf p t) else none
    | _ => none

/-- The geometries created. -/
def geometries {F : Type} (t : List (Call F)) : List Nat :=
  t.filterMap fun
    | .createGeometry r => some r
    | _ => none

/-- The materials created. -/
def materials {F : Type} (t : List (Call F)) : List Nat :=
  t.filterMap fun
    | .createMaterial r => some r
    | _ => none

/-- One geometry instance: its handle, the geometry and the materials it was created with. -/
structure Instance where
  handle : Nat
  geometry : Option Nat
  materials : List (Option Nat)
deriving DecidableEq

/-- The geometry instances created. -/
def instances {F : Type} (t : List (Call F)) : List Instance :=
  t.filterMap fun
    | .createGeometryInstance g m r => some ⟨r, g, m⟩
    | _ => none

/-- The geometry groups created. -/
def groups {F : Type} (t : List (Call F)) : List Nat :=
  t.filterMap fun
    | .createGeometryGroup r => some r
    | _ => none

/-- The child counts declared for `group`. -/
def childCounts {F : Type} (group : Nat) (t : List (Call F)) : List Nat :=
  t.filterMap fun
    | .setChildCount g n => if g = group then some n else none
    | _ => none

/-- The children assigned in `group`: child index and geometry instance. -/
def children {F : Type} (group : Nat) (t : List (Call F)) : List (Nat × Nat) :=
  t.filterMap fun
    | .setChild g i c => if g = group then some (i, c) else none
    | _ => none

/-- The values written to float buffer `buffer`: element index and value. -/
def floatWrites {F : Type} (buffer : Nat) (t : List (Call F)) : List (Nat × F) :=
  t.filterMap fun
    | .writeFloat b i v => if b = buffer then some (i, v) else none
    | _ => none

/-- The planes written to `float4` buffer `buffer`, in order. -/
def float4Writes {F : Type} (buffer : Nat) (t : List (Call F)) : List (Nat × float4 F) :=
  t.filterMap fun
    | .writeFloat4 b i v => if b = buffer then some (i, v) else none
    | _ => none

/-- The buffers created with a format and dimensions: handle and dimensions. -/
def buffers {F : Type} (t : List (Call F)) : List (Nat × List Nat) :=
  t.filterMap fun
    | .createBuffer _ _ dims r => some (r, dims)
    | _ => none

/-- The values bound to the float variable `name` of object `owner`. -/
def floatValues {F : Type} (owner : Option Nat) (name : String) (t : List (Call F)) :
    List (List F) :=
  t.filterMap fun
    | .setFloat o n v => if o = owner ∧ n = name then some v else none
    | _ => none

/-- The buffers bound to the variable `name` of object `owner` by `setBuffer`. -/
def bufferValues {F : Type} (owner : Option Nat) (name : String) (t : List (Call F)) :
    List Nat :=
  t.filterMap fun
    | .setBuffer o n b => if o = owner ∧ n = name then some b else none
    | _ => none

/-- Whether `buffer` is mapped after the calls `t`, when it was `mapped` before them. -/
def isMapped {F : Type} (buffer : Nat) (mapped : Bool) : List (Call F) → Bool
  | [] => mapped
  | .map b :: t => isMapped buffer (if b = buffer then true else mapped) t
  | .unmap b :: t => isMapped buffer (if b = buffer then false else mapped) t
  | _ :: t => isMapped buffer mapped t

/-! ## The convex hull and its box -/

/-- The value `dot( n, x ) + d` of the plane `( n, d )` at the point `x`. -/
def planeValue {F : Type} [Add F] [Mul F] (p : float4 F) (x : float3 F) : F :=
  dot (make_float3 p.x p.y p.z) x + p.w

/-- The point `x` lies in the convex region bounded by `planes`. -/
def insideHull {F : Type} [Add F] [Mul F] [Zero F] [LE F] (planes : List (float4 F))
    (x : float3 F) : Prop :=
  ∀ p ∈ planes, planeValue p x ≤ 0

/-- The point `x` lies in the axis-aligned box with the corners `bbmin` and `bbmax`. -/
def insideBox {F : Type} [LE F] (bbmin bbmax : List F) (x : float3 F) : Prop :=
  List.Forall₂ (fun a b => a ≤ b) bbmin x.toList ∧ List.Forall₂ (fun a b => a ≤ b) x.toList bbmax

/-! ## A sample environment and state -/

/-- A camera at the position `setup` gives it, looking along the negative z axis. -/
def sampleCamera : Camera ℚ where
  getFov := 60
  getAspectRatio := 3 / 2
  getEyePoint := make_float3 7 (46 / 5) (-6)
  getViewDirection := make_float3 0 0 (-1)

/-- An environment over the rational numbers, with simple stand-ins for the library
functions, on which the definitions can be evaluated. -/
def sampleEnv : Env ℚ where
  assetDir := "/assets"
  rnd := fun seed => (1 / 2, (1664525 * seed + 1013904223) % 2 ^ 32)
  cos := fun _ => 1
  sin := fun _ => 0
  sqrt := fun x => x
  log := fun _ => 0
  pi := 22 / 7
  calculateCameraVariables := fun _ _ _ _ _ _ =>
    (make_float3 1 0 0, make_float3 0 1 0, make_float3 0 0 1)
  sizeofBasicLight := 32
  getWindowAspectRatio := 3 / 2
  getWindowWidth := 1080
  getWindowHeight := 720
  getAverageFps := 60
  setPerspective := fun cam fov aspect _ _ => { cam with getFov := fov, getAspectRatio := aspect }
  lookAt := fun cam eye _ => { cam with getEyePoint := eye }

/-- A state in which the output buffer (handle 0) and the texture (handle 1) exist. -/
def sampleWorld : World ℚ :=
  { World.init sampleEnv sampleCamera with
    next := 2
    trace := [.createOutputBuffer "RT_FORMAT_UNSIGNED_BYTE4" 1080 720 false 0,
      .set none "output_buffer" 0, .textureCreate "GL_BGRA" "GL_UNSIGNED_BYTE" 1080 720 1]
    mTexture := some 1 }

/-! ## The noise loop in closed form -/

/-- The seed of `rand_range` after `k` calls starting from `seed`. -/
def seedAfter {F : Type} (rnd : Nat → F × Nat) (seed : Nat) (k : Nat) : Nat :=
  (fun s => (rnd s).2)^[k] seed

/-- The writes of `i` iterations of the noise loop that start at position `tex_data` with the
seed `seed`. -/
def noiseWrites {F : Type} [Zero F] [One F] [Add F] [Sub F] [Mul F] (rnd : Nat → F × Nat)
    (noiseBuffer : Nat) : Nat → Nat → Nat → List (Call F)
  | 0, _, _ => []
  | i + 1, tex_data, seed =>
    .writeFloat noiseBuffer tex_data (rand_range rnd 0 1 seed).1 ::
      noiseWrites rnd noiseBuffer i (tex_data + 1) (rand_range rnd 0 1 seed).2

/-! ## Lemmas on the state monad, the noise loop and strings -/

theorem bind_apply {F α β : Type} (x : Run F α) (f : α → Run F β) (w : World F) :
    (x >>= f) w = match x w with
      | none => none
      | some (a, w1) => f a w1 := by
  show Run.bind x f w = _
  unfold Run.bind
  cases x w <;> rfl

theorem pure_apply {F α : Type} (a : α) (w : World F) : (pure a : Run F α) w = some (a, w) := by
  show (fun w => some (a, w)) w = _
  exact (id rfl)

theorem noiseLoop_apply {F : Type} [Zero F] [One F] [Add F] [Sub F] [Mul F] (rnd : Nat → F × Nat)
    (b : Nat) (i : Nat) : ∀ (p : Nat) (w : World F),
    noiseLoop rnd b i p w = some ((), { w with
      seed := seedAfter rnd w.seed i
      trace := w.trace ++ noiseWrites rnd b i p w.seed }) := by
  induction i with
  | zero => intro p w; simp [noiseLoop, noiseWrites, seedAfter, pure_apply]
  | succ i ih =>
    intro p w
    simp only [noiseLoop, bind_apply, rand_rangeM, getWorld, setWorld, pure_apply, call, ih,
      noiseWrites, seedAfter, Function.iterate_succ, Function.comp, rand_range, List.append_assoc,
      List.singleton_append]

theorem noiseLoop_bind_apply {F β : Type} [Zero F] [One F] [Add F] [Sub F] [Mul F]
    (rnd : Nat → F × Nat) (b i p : Nat) (f : Unit → Run F β) :
    (noiseLoop rnd b i p >>= f) = fun w => f () { w with
      seed := seedAfter rnd w.seed i
      trace := w.trace ++ noiseWrites rnd b i p w.seed } := by
  funext w
  rw [bind_apply, noiseLoop_apply]

theorem filterMap_noiseWrites {F β : Type} [Zero F] [One F] [Add F] [Sub F] [Mul F]
    (rnd : Nat → F × Nat) (b : Nat) (f : Call F → Option β)
    (hf : ∀ b i v, f (.writeFloat b i v) = none) (i : Nat) : ∀ (p seed : Nat),
    (noiseWrites rnd b i p seed).filterMap f = [] := by
  induction i with
  | zero => intro p seed; rfl
  | succ i ih => intro p seed; simp [noiseWrites, hf, ih]

theorem findSome_noiseWrites {F β : Type} [Zero F] [One F] [Add F] [Sub F] [Mul F]
    (rnd : Nat → F × Nat) (b : Nat) (f : Call F → Option β)
    (hf : ∀ b i v, f (.writeFloat b i v) = none) (i : Nat) : ∀ (p seed : Nat),
    (noiseWrites rnd b i p seed).findSome? f = none := by
  induction i with
  | zero => intro p seed; rfl
  | succ i ih => intro p seed; simp [noiseWrites, hf, ih]

theorem floatWrites_noiseWrites {F : Type} [Zero F] [One F] [Add F] [Sub F] [Mul F]
    (rnd : Nat → F × Nat) (b : Nat) (i : Nat) : ∀ (p seed : Nat),
    floatWrites b (noiseWrites rnd b i p seed) =
      (List.range i).map fun k => (p + k, (rand_range rnd 0 1 (seedAfter rnd seed k)).1) := by
  induction i with
  | zero => intro p seed; rfl
  | succ i ih =>
    intro p seed
    have h := ih (p + 1) (rand_range rnd 0 1 seed).2
    simp only [floatWrites] at h ⊢
    simp only [noiseWrites, List.filterMap_cons, ↓reduceIte, h, List.range_succ_eq_map, List.map_cons,
      List.map_map, seedAfter, Function.iterate_zero, id, Nat.add_zero, List.cons.injEq, true_and]
    apply List.map_congr_left
    intro k _
    simp [Function.iterate_succ, rand_range, Nat.add_assoc, Nat.add_comm 1 k]

theorem digitChar_inj : ∀ a < 10, ∀ b < 10, Nat.digitChar a = Nat.digitChar b → a = b := by
  decide

theorem digitChar_ne_minus : ∀ a < 10, Nat.digitChar a ≠ '-' := by
  decide

theorem decimalDigits_ne_nil (fuel n : Nat) : decimalDigits (fuel + 1) n ≠ [] := by
  unfold decimalDigits
  split <;> simp

theorem decimalDigits_inj : ∀ (f1 f2 a b : Nat), a < f1 → b < f2 →
    decimalDigits f1 a = decimalDigits f2 b → a = b := by
  intro f1
  induction f1 with
  | zero => intro f2 a b ha; omega
  | succ k ih =>
    intro f2 a b ha hb h
    cases f2 with
    | zero => omega
    | succ j =>
      unfold decimalDigits at h
      by_cases h1 : a < 10 <;> by_cases h2 : b < 10
      · simp only [h1, h2, if_true, List.cons.injEq, and_true] at h
        exact digitChar_inj a h1 b h2 h
      · simp only [h1, h2, if_true, if_false] at h
        have hj : j = (j - 1) + 1 := by omega
        rw [hj] at h
        have := decimalDigits_ne_nil (j - 1) (b / 10)
        have h' := congrArg List.length h
        simp at h'
        exact absurd h' this
      · simp only [h1, h2, if_true, if_false] at h
        have hk : k = (k - 1) + 1 := by omega
        rw [hk] at h
        have := decimalDigits_ne_nil (k - 1) (a / 10)
        have h' := congrArg List.length h
        simp at h'
        exact absurd h' this
      · simp only [h1, h2, if_false] at h
        have h3 := List.append_inj' h rfl
        have h4 := ih j (a / 10) (b / 10) (by omega) (by omega) h3.1
        have h5 := digitChar_inj (a % 10) (by omega) (b % 10) (by omega) (by simpa using h3.2)
        omega

theorem decimalDigits_no_minus : ∀ (fuel n : Nat), '-' ∉ decimalDigits fuel n := by
  intro fuel
  induction fuel with
  | zero => intro n; simp [decimalDigits]
  | succ k ih =>
    intro n
    unfold decimalDigits
    split
    · rename_i h
      simpa using (digitChar_ne_minus n h).symm
    · simp only [List.mem_append, List.mem_singleton, not_or]
      exact ⟨ih _, (digitChar_ne_minus (n % 10) (by omega)).symm⟩

theorem decimal_inj (a b : Int) (h : decimal a = decimal b) : a = b := by
  unfold decimal at h
  have hd := congrArg String.data h
  by_cases ha : a < 0 <;> by_cases hb : b < 0
  · simp only [ha, hb, if_true, List.cons.injEq, true_and] at hd
    have := decimalDigits_inj _ _ _ _ (Nat.lt_succ_self _) (Nat.lt_succ_self _) hd
    omega
  · simp only [ha, hb, if_true, if_false] at hd
    have := decimalDigits_no_minus (b.natAbs + 1) b.natAbs
    rw [← hd] at this
    simp at this
  · simp only [ha, hb, if_true, if_false] at hd
    have := decimalDigits_no_minus (a.natAbs + 1) a.natAbs
    rw [hd] at this
    simp at this
  · simp only [ha, hb, if_false] at hd
    have := decimalDigits_inj _ _ _ _ (Nat.lt_succ_self _) (Nat.lt_succ_self _) hd
    omega

theorem ptxPath_inj {F : Type} (env : Env F) (a b : String) :
    ptxPath env a = ptxPath env b ↔ a = b := by
  constructor
  · intro h
    unfold ptxPath at h
    have h1 := congrArg String.data h
    simp only [String.data_append, List.append_assoc] at h1
    have h2 := List.append_cancel_left (List.append_cancel_left h1)
    have h3 := List.append_cancel_right h2
    exact String.ext h3
  · intro h; rw [h]

theorem tutorial_name_inj (a b : Int)
    (h : "tutorial" ++ decimal a ++ ".cu" = "tutorial" ++ decimal b ++ ".cu") : a = b := by
  have h1 := congrArg String.data h
  simp only [String.data_append, List.append_assoc] at h1
  have h2 := List.append_cancel_right (List.append_cancel_left h1)
  exact decimal_inj a b (String.ext h2)

theorem tutorial10 : "tutorial" ++ decimal 10 ++ ".cu" = "tutorial10.cu" := by decide

theorem boundBuffer_append {F : Type} (owner : Option Nat) (name : String) (l1 l2 : List (Call F))
    (h : bindings owner name l2 = []) :
    boundBuffer owner name (l1 ++ l2) = boundBuffer owner name l1 := by
  simp only [boundBuffer, bindings, List.filterMap_append] at h ⊢
  rw [h, List.append_nil]

theorem getBuffer_apply {F : Type} (name : String) (w : World F) (b : Nat)
    (h : boundBuffer none name w.trace = some b) : getBuffer name w = some (b, w) := by
  unfold getBuffer
  simp only [bind_apply, getWorld, h]
  rfl

theorem radiance0 : "closest_hit_radiance" ++ decimal 0 = "closest_hit_radiance0" := by decide
theorem radiance1 : "closest_hit_radiance" ++ decimal 1 = "closest_hit_radiance1" := by decide
theorem radiance2 : "closest_hit_radiance" ++ decimal 2 = "closest_hit_radiance2" := by decide
theorem radiance3 : "closest_hit_radiance" ++ decimal 3 = "closest_hit_radiance3" := by decide

theorem camera_name_cases (n : Int) :
    (camera_name n = "env_camera" ↔ n ≥ 11) ∧ (camera_name n = "pinhole_camera" ↔ ¬ n ≥ 11) := by
  unfold camera_name
  constructor <;> split_ifs <;> simp <;> omega

theorem miss_name_cases (n : Int) :
    (miss_name n = "envmap_miss" ↔ n ≥ 5) ∧ (miss_name n = "miss" ↔ ¬ n ≥ 5) := by
  unfold miss_name
  constructor <;> split_ifs <;> simp <;> omega

theorem glass_ahname_cases (n : Int) :
    (glass_ahname n = "glass_any_hit_shadow" ↔ n ≥ 10) ∧
    (glass_ahname n = "any_hit_shadow" ↔ ¬ n ≥ 10) := by
  unfold glass_ahname
  constructor <;> split_ifs <;> simp <;> omega

theorem box_chname_cases (n : Int) :
    (box_chname n = "box_closest_hit_radiance" ↔ n ≥ 8) ∧
    (0 ≤ n ∧ n ≤ 3 → box_chname n = "closest_hit_radiance" ++ decimal n) ∧
    (n ≤ 0 → box_chname n = "closest_hit_radiance0") := by
  unfold box_chname
  refine ⟨?_, ?_, ?_⟩
  · split_ifs <;> simp <;> omega
  · rintro ⟨h0, h3⟩
    have hn : n = 0 ∨ n = 1 ∨ n = 2 ∨ n = 3 := by omega
    rcases hn with rfl | rfl | rfl | rfl
    · rw [radiance0]; rfl
    · rw [radiance1]; rfl
    · rw [radiance2]; rfl
    · rw [radiance3]; rfl
  · intro h
    split_ifs <;> first | rfl | omega

theorem floor_chname_cases (n : Int) :
    (floor_chname n = "floor_closest_hit_radiance4" ↔ 4 ≤ n ∧ n ≤ 5) ∧
    (floor_chname n = "floor_closest_hit_radiance5" ↔ n = 6) ∧
    (floor_chname n = "floor_closest_hit_radiance" ↔ n ≥ 7) ∧
    (0 ≤ n ∧ n ≤ 3 → floor_chname n = "closest_hit_radiance" ++ decimal n) ∧
    (n ≤ 0 → floor_chname n = "closest_hit_radiance0") := by
  unfold floor_chname
  refine ⟨?_, ?_, ?_, ?_, ?_⟩
  · split_ifs <;> simp <;> omega
  · split_ifs <;> simp <;> omega
  · split_ifs <;> simp <;> omega
  · rintro ⟨h0, h3⟩
    have hn : n = 0 ∨ n = 1 ∨ n = 2 ∨ n = 3 := by omega
    rcases hn with rfl | rfl | rfl | rfl
    · rw [radiance0]; rfl
    · rw [radiance1]; rfl
    · rw [radiance2]; rfl
    · rw [radiance3]; rfl
  · intro h
    split_ifs <;> first | rfl | omega

set_option maxRecDepth 100000 in
set_option maxHeartbeats 4000000 in
theorem createContext_programs {F : Type} [Field F] (env : Env F) (w : World F) :
    ∃ w1, createContext env w = some ((), w1) ∧
      entryPoints w.tutorial_ptx_path (newCalls w w1) =
        [camera_name w.tutorial_number, "exception", miss_name w.tutorial_number] ∧
      rayGenerationPrograms (newCalls w w1) = [(0, some (camera_name w.tutorial_number))] ∧
      exceptionPrograms (newCalls w w1) = [(0, some "exception")] ∧
      missPrograms (newCalls w w1) = [(0, some (miss_name w.tutorial_number))] := by
  simp only [createContext]
  simp only [noiseLoop_bind_apply]
  simp only [bind_apply, pure_apply, call, create, getWorld,
      List.nil_append, List.cons_append, List.append_assoc, Nat.reduceAdd, Nat.add_assoc]
  refine ⟨_, rfl, ?_⟩
  simp only [newCalls, List.drop_left]
  generalize 64 * 64 * 64 = N
  simp [entryPoints, rayGenerationPrograms, exceptionPrograms, missPrograms, entryOf,
    filterMap_noiseWrites, findSome_noiseWrites, List.findSome?_append]

set_option maxRecDepth 100000 in
set_option maxHeartbeats 4000000 in
theorem createGeometry_programs {F : Type} [Field F] (env : Env F) (w : World F) :
    ∃ loc w1, createGeometry env w = some (loc, w1) ∧
      closestHitPrograms loc.box_matl (newCalls w w1) = [(0, some (box_chname w.tutorial_number))] ∧
      closestHitPrograms loc.floor_matl (newCalls w w1) =
        [(0, some (floor_chname w.tutorial_number))] ∧
      anyHitPrograms loc.box_matl (newCalls w w1) =
        (if w.tutorial_number ≥ 3 then [(1, some "any_hit_shadow")] else []) ∧
      anyHitPrograms loc.floor_matl (newCalls w w1) =
        (if w.tutorial_number ≥ 3 then [(1, some "any_hit_shadow")] else []) ∧
      (loc.chull.isSome ↔ w.tutorial_number ≥ 9) ∧
      (loc.glass_matl.isSome ↔ w.tutorial_number ≥ 9) ∧
      (∀ c ∈ loc.chull, c ∈ geometries (newCalls w w1) ∧
        boundingBoxPrograms c (newCalls w w1) = [some "chull_bounds"] ∧
        intersectionPrograms c (newCalls w w1) = [some "chull_intersect"]) ∧
      (∀ m ∈ loc.glass_matl,
        closestHitPrograms m (newCalls w w1) = [(0, some "glass_closest_hit_radiance")] ∧
        anyHitPrograms m (newCalls w w1) = [(1, some (glass_ahname w.tutorial_number))]) := by
  by_cases h9 : w.tutorial_number ≥ 9
  · have h3 : w.tutorial_number ≥ 3 := by omega
    simp only [createGeometry, bind_apply, pure_apply, call, create, getWorld, index, h9, h3, planeLoop, fail,
      ↓reduceIte, Option.isSome, List.nil_append, List.cons_append, List.getElem?_cons_zero, List.getElem?_cons_succ,
      List.length_cons, List.length_nil, List.append_assoc, Nat.lt_irrefl, Nat.reduceLT, Nat.reduceAdd, Nat.add_assoc]
    refine ⟨_, _, rfl, ?_⟩
    simp only [newCalls, List.drop_left]
    simp [closestHitPrograms, anyHitPrograms, geometries, boundingBoxPrograms, intersectionPrograms, entryOf]
  · by_cases h3 : w.tutorial_number ≥ 3
    · simp only [createGeometry, bind_apply, pure_apply, call, create, getWorld, index, h9, h3, planeLoop, fail,
        ↓reduceIte, Option.isSome, List.nil_append, List.cons_append, List.getElem?_cons_zero, List.getElem?_cons_succ,
        List.length_cons, List.length_nil, List.append_assoc, Nat.lt_irrefl, Nat.reduceLT, Nat.reduceAdd, Nat.add_assoc]
      refine ⟨_, _, rfl, ?_⟩
      simp only [newCalls, List.drop_left]
      simp [closestHitPrograms, anyHitPrograms, geometries, boundingBoxPrograms, intersectionPrograms, entryOf]
    · simp only [createGeometry, bind_apply, pure_apply, call, create, getWorld, index, h9, h3, planeLoop, fail,
        ↓reduceIte, Option.isSome, List.nil_append, List.cons_append, List.getElem?_cons_zero, List.getElem?_cons_succ,
        List.length_cons, List.length_nil, List.append_assoc, Nat.lt_irrefl, Nat.reduceLT, Nat.reduceAdd, Nat.add_assoc]
      refine ⟨_, _, rfl, ?_⟩
      simp only [newCalls, List.drop_left]
      simp [closestHitPrograms, anyHitPrograms, geometries, boundingBoxPrograms, intersectionPrograms, entryOf]

/-! ## The claims -/

set_option maxRecDepth 100000 in
set_option maxHeartbeats 4000000 in
/-- C1: for every tutorial number, `createGeometry` returns, creates exactly one geometry
group, and creates the geometry instances of the box, of the floor parallelogram and, exactly
when the tutorial number is at least 9, of the convex hull, in this order.  The child count it
declares for the group is the number of instances created, which is 3 when the tutorial number
is at least 9 and 2 otherwise, and the children it assigns are these instances at the indices
0, 1, 2 in order, each index once. -/
theorem createGeometry_group {F : Type} [Field F] (env : Env F) (w : World F) :
    ∃ loc w1, createGeometry env w = some (loc, w1) ∧
      groups (newCalls w w1) = [loc.geometrygroup] ∧
      (instances (newCalls w w1)).map Instance.handle = loc.gis ∧
      (instances (newCalls w w1)).map Instance.geometry =
        [some loc.box, some loc.parallelogram] ++ (if w.tutorial_number ≥ 9 then [loc.chull] else []) ∧
      (loc.chull.isSome ↔ w.tutorial_number ≥ 9) ∧
      childCounts loc.geometrygroup (newCalls w w1) = [loc.gis.length] ∧
      children loc.geometrygroup (newCalls w w1) = loc.gis.enum ∧
      loc.gis.length = (if w.tutorial_number ≥ 9 then 3 else 2) ∧
      loc.gis.Nodup ∧
      intersectionPrograms loc.box (newCalls w w1) = [some "box_intersect"] ∧
      intersectionPrograms loc.parallelogram (newCalls w w1) = [some "intersect"] ∧
      (∀ c ∈ loc.chull, intersectionPrograms c (newCalls w w1) = [some "chull_intersect"]) := by
  by_cases h9 : w.tutorial_number ≥ 9
  · have h3 : w.tutorial_number ≥ 3 := by omega
    simp only [createGeometry, bind_apply, pure_apply, call, create, getWorld, index, h9, h3, planeLoop, fail,
      ↓reduceIte, Option.isSome, List.nil_append, List.cons_append, List.getElem?_cons_zero, List.getElem?_cons_succ,
      List.length_cons, List.length_nil, List.append_assoc, Nat.lt_irrefl, Nat.reduceLT, Nat.reduceAdd, Nat.add_assoc]
    refine ⟨_, _, rfl, ?_⟩
    simp only [newCalls, List.drop_left]
    simp [groups, instances, childCounts, children, intersectionPrograms, entryOf, List.enum, List.enumFrom]
  · by_cases h3 : w.tutorial_number ≥ 3
    · simp only [createGeometry, bind_apply, pure_apply, call, create, getWorld, index, h9, h3, planeLoop, fail,
        ↓reduceIte, Option.isSome, List.nil_append, List.cons_append, List.getElem?_cons_zero, List.getElem?_cons_succ,
        List.length_cons, List.length_nil, List.append_assoc, Nat.lt_irrefl, Nat.reduceLT, Nat.reduceAdd, Nat.add_assoc]
      refine ⟨_, _, rfl, ?_⟩
      simp only [newCalls, List.drop_left]
      simp [groups, instances, childCounts, children, intersectionPrograms, entryOf, List.enum, List.enumFrom]
    · simp only [createGeometry, bind_apply, pure_apply, call, create, getWorld, index, h9, h3, planeLoop, fail,
        ↓reduceIte, Option.isSome, List.nil_append, List.cons_append, List.getElem?_cons_zero, List.getElem?_cons_succ,
        List.length_cons, List.length_nil, List.append_assoc, Nat.lt_irrefl, Nat.reduceLT, Nat.reduceAdd, Nat.add_assoc]
      refine ⟨_, _, rfl, ?_⟩
      simp only [newCalls, List.drop_left]
      simp [groups, instances, childCounts, children, intersectionPrograms, entryOf, List.enum, List.enumFrom]

set_option maxRecDepth 100000 in
set_option maxHeartbeats 4000000 in
/-- C2: `setup` returns and leaves `tutorial_number` at 10 whatever it was before, and the
entry points it requests from the tutorial module through `createContext` and
`createGeometry` are exactly the eleven listed, each with the role listed: ray generation,
exception and miss program of the context, bounding box and intersection program of the
convex hull, closest-hit and any-hit programs of the box, floor and glass materials. -/
theorem setup_entry_points {F : Type} [Field F] (env : Env F) (w : World F) :
    ∃ w1, setup env w = some ((), w1) ∧
      w1.tutorial_number = 10 ∧
      entryPoints w1.tutorial_ptx_path (newCalls w w1) =
        ["pinhole_camera", "exception", "envmap_miss", "chull_bounds", "chull_intersect",
         "box_closest_hit_radiance", "any_hit_shadow", "floor_closest_hit_radiance",
         "any_hit_shadow", "glass_closest_hit_radiance", "glass_any_hit_shadow"] ∧
      rayGenerationPrograms (newCalls w w1) = [(0, some "pinhole_camera")] ∧
      exceptionPrograms (newCalls w w1) = [(0, some "exception")] ∧
      missPrograms (newCalls w w1) = [(0, some "envmap_miss")] ∧
      ∃ box chull parallelogram box_matl floor_matl glass_matl,
        geometries (newCalls w w1) = [box, chull, parallelogram] ∧
        materials (newCalls w w1) = [box_matl, floor_matl, glass_matl] ∧
        (instances (newCalls w w1)).map (fun i => (i.geometry, i.materials)) =
          [(some box, [some box_matl]), (some parallelogram, [some floor_matl]),
           (some chull, [some glass_matl])] ∧
        boundingBoxPrograms chull (newCalls w w1) = [some "chull_bounds"] ∧
        intersectionPrograms chull (newCalls w w1) = [some "chull_intersect"] ∧
        closestHitPrograms box_matl (newCalls w w1) = [(0, some "box_closest_hit_radiance")] ∧
        anyHitPrograms box_matl (newCalls w w1) = [(1, some "any_hit_shadow")] ∧
        closestHitPrograms floor_matl (newCalls w w1) = [(0, some "floor_closest_hit_radiance")] ∧
        anyHitPrograms floor_matl (newCalls w w1) = [(1, some "any_hit_shadow")] ∧
        closestHitPrograms glass_matl (newCalls w w1) = [(0, some "glass_closest_hit_radiance")] ∧
        anyHitPrograms glass_matl (newCalls w w1) = [(1, some "glass_any_hit_shadow")] := by
  simp only [setup, createContext, createGeometry, setupLights]
  simp only [noiseLoop_bind_apply]
  simp only [bind_apply, pure_apply, call, create, getWorld, setWorld, index, planeLoop, fail,
      ↓reduceIte, Option.isSome, List.nil_append, List.cons_append, List.getElem?_cons_zero, List.getElem?_cons_succ,
      List.length_cons, List.length_nil, List.append_assoc, Nat.lt_irrefl, Nat.reduceLT, Nat.reduceAdd, Nat.add_assoc,
      ge_iff_le, Int.reduceLE, tutorial10, camera_name, miss_name, box_chname, floor_chname,
      glass_ahname]
  refine ⟨_, rfl, rfl, ?_⟩
  simp only [newCalls, List.drop_left]
  generalize 64 * 64 * 64 = N
  refine ⟨?_, ?_, ?_, ?_, w.next + 11, w.next + 12, w.next + 16, w.next + 19, w.next + 22, w.next + 27, ?_⟩
  all_goals
    simp [entryPoints, rayGenerationPrograms, exceptionPrograms, missPrograms, geometries, materials,
      instances, boundingBoxPrograms, intersectionPrograms, closestHitPrograms, anyHitPrograms, entryOf,
      filterMap_noiseWrites, findSome_noiseWrites, List.findSome?_append, ptxPath_inj]

set_option maxRecDepth 100000 in
/-- C3: when the variable `output_buffer` is bound to a buffer, `update` returns and makes
exactly these calls in this order: the window title, the camera variables `eye`, `U`, `V`, `W`
computed from the current camera, the launch of entry point 0 with `( width, height )`, the map
of the output buffer, the texture update with `width` x `height` BGRA unsigned-byte pixels
from the mapped buffer, and the unmap.  The output buffer is not mapped afterwards. -/
theorem update_sequence {F : Type} [Field F] (env : Env F) (w : World F) (b : Nat)
    (hb : boundBuffer none "output_buffer" w.trace = some b) :
    ∃ w1, update env w = some ((), w1) ∧
      newCalls w w1 =
        [ .setTitle (decimal env.getAverageFps),
          .setFloat none "eye" w.mCam.getEyePoint.toList,
          .setFloat none "U" (env.calculateCameraVariables w.mCam.getEyePoint
            (w.mCam.getEyePoint + w.mCam.getViewDirection.scale 10.0) (make_float3 0 1 0)
            w.mCam.getFov w.mCam.getAspectRatio true).1.toList,
          .setFloat none "V" (env.calculateCameraVariables w.mCam.getEyePoint
            (w.mCam.getEyePoint + w.mCam.getViewDirection.scale 10.0) (make_float3 0 1 0)
            w.mCam.getFov w.mCam.getAspectRatio true).2.1.toList,
          .setFloat none "W" (env.calculateCameraVariables w.mCam.getEyePoint
            (w.mCam.getEyePoint + w.mCam.getViewDirection.scale 10.0) (make_float3 0 1 0)
            w.mCam.getFov w.mCam.getAspectRatio true).2.2.toList,
          .launch 0 w.width w.height,
          .map b,
          .textureUpdate w.mTexture b "GL_BGRA" "GL_UNSIGNED_BYTE" 0 w.width w.height,
          .unmap b ] ∧
      (∀ mapped, isMapped b mapped (newCalls w w1) = false) := by
  have hb2 : ∀ l : List (Call F), bindings none "output_buffer" l = [] →
      boundBuffer none "output_buffer" (w.trace ++ l) = some b := by
    intro l hl
    rw [boundBuffer_append _ _ _ _ hl, hb]
  have hg := getBuffer_apply "output_buffer"
    { w with trace := w.trace ++
        [ .setTitle (decimal env.getAverageFps),
          .setFloat none "eye" w.mCam.getEyePoint.toList,
          .setFloat none "U" (env.calculateCameraVariables w.mCam.getEyePoint
            (w.mCam.getEyePoint + w.mCam.getViewDirection.scale 10.0) (make_float3 0 1 0)
            w.mCam.getFov w.mCam.getAspectRatio true).1.toList,
          .setFloat none "V" (env.calculateCameraVariables w.mCam.getEyePoint
            (w.mCam.getEyePoint + w.mCam.getViewDirection.scale 10.0) (make_float3 0 1 0)
            w.mCam.getFov w.mCam.getAspectRatio true).2.1.toList,
          .setFloat none "W" (env.calculateCameraVariables w.mCam.getEyePoint
            (w.mCam.getEyePoint + w.mCam.getViewDirection.scale 10.0) (make_float3 0 1 0)
            w.mCam.getFov w.mCam.getAspectRatio true).2.2.toList,
          .launch 0 w.width w.height ] } b (hb2 _ (by simp [bindings]))
  simp only [update, updateCamera, bind_apply, pure_apply, call, getWorld,
    List.nil_append, List.cons_append, List.append_assoc, hg]
  refine ⟨_, rfl, ?_⟩
  simp only [newCalls, List.drop_left]
  simp [isMapped]

/-- The hypothesis of `update_sequence` holds in the sample state, where the output buffer is
the handle 0. -/
theorem update_sequence_witness :
    boundBuffer none "output_buffer" sampleWorld.trace = some 0 ∧
    ∃ w1, update sampleEnv sampleWorld = some ((), w1) ∧
      newCalls sampleWorld w1 =
        [ .setTitle (decimal sampleEnv.getAverageFps),
          .setFloat none "eye" sampleWorld.mCam.getEyePoint.toList,
          .setFloat none "U" (sampleEnv.calculateCameraVariables sampleWorld.mCam.getEyePoint
            (sampleWorld.mCam.getEyePoint + sampleWorld.mCam.getViewDirection.scale 10.0)
            (make_float3 0 1 0) sampleWorld.mCam.getFov sampleWorld.mCam.getAspectRatio
            true).1.toList,
          .setFloat none "V" (sampleEnv.calculateCameraVariables sampleWorld.mCam.getEyePoint
            (sampleWorld.mCam.getEyePoint + sampleWorld.mCam.getViewDirection.scale 10.0)
            (make_float3 0 1 0) sampleWorld.mCam.getFov sampleWorld.mCam.getAspectRatio
            true).2.1.toList,
          .setFloat none "W" (sampleEnv.calculateCameraVariables sampleWorld.mCam.getEyePoint
            (sampleWorld.mCam.getEyePoint + sampleWorld.mCam.getViewDirection.scale 10.0)
            (make_float3 0 1 0) sampleWorld.mCam.getFov sampleWorld.mCam.getAspectRatio
            true).2.2.toList,
          .launch 0 sampleWorld.width sampleWorld.height,
          .map 0,
          .textureUpdate sampleWorld.mTexture 0 "GL_BGRA" "GL_UNSIGNED_BYTE" 0 sampleWorld.width
            sampleWorld.height,
          .unmap 0 ] ∧
      (∀ mapped, isMapped 0 mapped (newCalls sampleWorld w1) = false) :=
  ⟨by decide, update_sequence sampleEnv sampleWorld 0 (by decide)⟩

set_option maxRecDepth 100000 in
set_option maxHeartbeats 4000000 in
/-- C4: for every tutorial number, each geometry instance `createGeometry` creates has
exactly one material, none of them null: the box has the box material, the floor the floor
material and the convex hull the glass material.  The glass material is created exactly when
the convex hull is (tutorial number at least 9), and every material created is bound to
exactly one geometry instance. -/
theorem createGeometry_materials {F : Type} [Field F] (env : Env F) (w : World F) :
    ∃ loc w1, createGeometry env w = some (loc, w1) ∧
      (instances (newCalls w w1)).map (fun i => (i.geometry, i.materials)) =
        [(some loc.box, [some loc.box_matl]), (some loc.parallelogram, [some loc.floor_matl])] ++
          (if w.tutorial_number ≥ 9 then [(loc.chull, [loc.glass_matl])] else []) ∧
      (loc.chull.isSome ↔ w.tutorial_number ≥ 9) ∧
      (loc.glass_matl.isSome ↔ w.tutorial_number ≥ 9) ∧
      geometries (newCalls w w1) = loc.box :: (loc.chull.toList ++ [loc.parallelogram]) ∧
      materials (newCalls w w1) = [loc.box_matl, loc.floor_matl] ++ loc.glass_matl.toList ∧
      (materials (newCalls w w1)).Nodup ∧
      (∀ i ∈ instances (newCalls w w1),
        ∃ m, i.materials = [some m] ∧ m ∈ materials (newCalls w w1)) ∧
      (∀ m ∈ materials (newCalls w w1),
        ((instances (newCalls w w1)).filter (fun i => decide (some m ∈ i.materials))).length = 1) := by
  by_cases h9 : w.tutorial_number ≥ 9
  · have h3 : w.tutorial_number ≥ 3 := by omega
    simp only [createGeometry, bind_apply, pure_apply, call, create, getWorld, index, h9, h3, planeLoop, fail,
      ↓reduceIte, Option.isSome, List.nil_append, List.cons_append, List.getElem?_cons_zero, List.getElem?_cons_succ,
      List.length_cons, List.length_nil, List.append_assoc, Nat.lt_irrefl, Nat.reduceLT, Nat.reduceAdd, Nat.add_assoc]
    refine ⟨_, _, rfl, ?_⟩
    simp only [newCalls, List.drop_left]
    simp [instances, geometries, materials, List.filter]
  · by_cases h3 : w.tutorial_number ≥ 3
    · simp only [createGeometry, bind_apply, pure_apply, call, create, getWorld, index, h9, h3, planeLoop, fail,
        ↓reduceIte, Option.isSome, List.nil_append, List.cons_append, List.getElem?_cons_zero, List.getElem?_cons_succ,
        List.length_cons, List.length_nil, List.append_assoc, Nat.lt_irrefl, Nat.reduceLT, Nat.reduceAdd, Nat.add_assoc]
      refine ⟨_, _, rfl, ?_⟩
      simp only [newCalls, List.drop_left]
      simp [instances, geometries, materials, List.filter]
    · simp only [createGeometry, bind_apply, pure_apply, call, create, getWorld, index, h9, h3, planeLoop, fail,
        ↓reduceIte, Option.isSome, List.nil_append, List.cons_append, List.getElem?_cons_zero, List.getElem?_cons_succ,
        List.length_cons, List.length_nil, List.append_assoc, Nat.lt_irrefl, Nat.reduceLT, Nat.reduceAdd, Nat.add_assoc]
      refine ⟨_, _, rfl, ?_⟩
      simp only [newCalls, List.drop_left]
      simp [instances, geometries, materials, List.filter]

set_option maxRecDepth 100000 in
set_option maxHeartbeats 4000000 in
/-- The state after `setup`: the tutorial number, the module path, and the variable
`output_buffer`, bound to the buffer `sutil::createOutputBuffer` returned, as `update` needs
it. -/
theorem setup_state {F : Type} [Field F] (env : Env F) (w : World F) :
    ∃ w1, setup env w = some ((), w1) ∧ w1.tutorial_number = 10 ∧
      w1.tutorial_ptx_path = ptxPath env ("tutorial" ++ decimal w1.tutorial_number ++ ".cu") ∧
      boundBuffer none "output_buffer" w1.trace = some (w.next + 2) := by
  simp only [setup, createContext, createGeometry, setupLights]
  simp only [noiseLoop_bind_apply]
  simp only [bind_apply, pure_apply, call, create, getWorld, setWorld, index, planeLoop, fail,
      ↓reduceIte, Option.isSome, List.nil_append, List.cons_append, List.getElem?_cons_zero, List.getElem?_cons_succ,
      List.length_cons, List.length_nil, List.append_assoc, Nat.lt_irrefl, Nat.reduceLT, Nat.reduceAdd, Nat.add_assoc,
      ge_iff_le, Int.reduceLE]
  refine ⟨_, rfl, rfl, rfl, ?_⟩
  generalize 64 * 64 * 64 = N
  simp [boundBuffer, bindings, filterMap_noiseWrites, List.filterMap_append]

/-- C5: `ptxPath f` is the first asset directory, then "/ptx/", then `f`, then ".ptx";
`setup` sets the tutorial module path to `ptxPath` of "tutorial", the decimal tutorial number
and ".cu", which is "<asset dir>/ptx/tutorial10.cu.ptx"; and two different tutorial numbers
never give the same path. -/
theorem ptxPath_tutorial {F : Type} [Field F] (env : Env F) (w : World F) :
    (∀ f : String, ptxPath env f = env.assetDir ++ "/ptx/" ++ f ++ ".ptx") ∧
    (∃ w1, setup env w = some ((), w1) ∧
      w1.tutorial_ptx_path = ptxPath env ("tutorial" ++ decimal w1.tutorial_number ++ ".cu") ∧
      w1.tutorial_number = 10 ∧
      w1.tutorial_ptx_path = env.assetDir ++ "/ptx/tutorial10.cu.ptx") ∧
    (∀ a b : Int, ptxPath env ("tutorial" ++ decimal a ++ ".cu") =
        ptxPath env ("tutorial" ++ decimal b ++ ".cu") → a = b) := by
  refine ⟨fun f => rfl, ?_, ?_⟩
  · obtain ⟨w1, h1, h2, h3, _⟩ := setup_state env w
    refine ⟨w1, h1, h3, h2, ?_⟩
    rw [h3, h2, tutorial10]
    unfold ptxPath
    apply String.ext
    simp [String.data_append]
  · intro a b h
    exact tutorial_name_inj a b ((ptxPath_inj env _ _).mp h)

/-- C6: for every tutorial number `n`, the programs `createContext` and `createGeometry`
select follow the tutorial table: ray generation "env_camera" iff `n ≥ 11`, else
"pinhole_camera"; miss "envmap_miss" iff `n ≥ 5`, else "miss"; any-hit "any_hit_shadow" on box
and floor iff `n ≥ 3`; floor closest-hit "floor_closest_hit_radiance4" iff `4 ≤ n ≤ 5`,
"floor_closest_hit_radiance5" iff `n = 6`, "floor_closest_hit_radiance" iff `n ≥ 7`; box
closest-hit "box_closest_hit_radiance" iff `n ≥ 8`; the convex hull and its glass material
exist iff `n ≥ 9`; the glass any-hit is "glass_any_hit_shadow" iff `n ≥ 10`; for `0 ≤ n ≤ 3` box
and floor use "closest_hit_radiance<n>", and every `n ≤ 0` selects "closest_hit_radiance0". -/
theorem tutorial_table {F : Type} [Field F] (env : Env F) (w : World F) :
    (∃ w1, createContext env w = some ((), w1) ∧
      ∃ camera miss : String,
        rayGenerationPrograms (newCalls w w1) = [(0, some camera)] ∧
        missPrograms (newCalls w w1) = [(0, some miss)] ∧
        (camera = "env_camera" ↔ w.tutorial_number ≥ 11) ∧
        (camera = "pinhole_camera" ↔ ¬ w.tutorial_number ≥ 11) ∧
        (miss = "envmap_miss" ↔ w.tutorial_number ≥ 5) ∧
        (miss = "miss" ↔ ¬ w.tutorial_number ≥ 5)) ∧
    (∃ loc w1, createGeometry env w = some (loc, w1) ∧
      ∃ box_ch floor_ch : String,
        closestHitPrograms loc.box_matl (newCalls w w1) = [(0, some box_ch)] ∧
        closestHitPrograms loc.floor_matl (newCalls w w1) = [(0, some floor_ch)] ∧
        (anyHitPrograms loc.box_matl (newCalls w w1) = [(1, some "any_hit_shadow")] ↔
          w.tutorial_number ≥ 3) ∧
        (anyHitPrograms loc.box_matl (newCalls w w1) = [] ↔ ¬ w.tutorial_number ≥ 3) ∧
        (anyHitPrograms loc.floor_matl (newCalls w w1) = [(1, some "any_hit_shadow")] ↔
          w.tutorial_number ≥ 3) ∧
        (anyHitPrograms loc.floor_matl (newCalls w w1) = [] ↔ ¬ w.tutorial_number ≥ 3) ∧
        (floor_ch = "floor_closest_hit_radiance4" ↔ 4 ≤ w.tutorial_number ∧ w.tutorial_number ≤ 5) ∧
        (floor_ch = "floor_closest_hit_radiance5" ↔ w.tutorial_number = 6) ∧
        (floor_ch = "floor_closest_hit_radiance" ↔ w.tutorial_number ≥ 7) ∧
        (box_ch = "box_closest_hit_radiance" ↔ w.tutorial_number ≥ 8) ∧
        (loc.chull.isSome ↔ w.tutorial_number ≥ 9) ∧
        (∀ c ∈ loc.chull, c ∈ geometries (newCalls w w1)) ∧
        (loc.glass_matl.isSome ↔ w.tutorial_number ≥ 9) ∧
        (∀ m ∈ loc.glass_matl, ∃ glass_ah : String,
          anyHitPrograms m (newCalls w w1) = [(1, some glass_ah)] ∧
          (glass_ah = "glass_any_hit_shadow" ↔ w.tutorial_number ≥ 10)) ∧
        (0 ≤ w.tutorial_number ∧ w.tutorial_number ≤ 3 →
          box_ch = "closest_hit_radiance" ++ decimal w.tutorial_number ∧
          floor_ch = "closest_hit_radiance" ++ decimal w.tutorial_number) ∧
        (w.tutorial_number ≤ 0 →
          box_ch = "closest_hit_radiance0" ∧ floor_ch = "closest_hit_radiance0")) := by
  constructor
  · obtain ⟨w1, h1, _, h2, _, h3⟩ := createContext_programs env w
    exact ⟨w1, h1, _, _, h2, h3, (camera_name_cases _).1, (camera_name_cases _).2,
      (miss_name_cases _).1, (miss_name_cases _).2⟩
  · obtain ⟨loc, w1, h1, hb, hf, hba, hfa, hc, hg, hcg, hgm⟩ := createGeometry_programs env w
    have hB := box_chname_cases w.tutorial_number
    have hF := floor_chname_cases w.tutorial_number
    refine ⟨loc, w1, h1, _, _, hb, hf, ?_, ?_, ?_, ?_, hF.1, hF.2.1, hF.2.2.1, hB.1, hc,
      fun c hc' => (hcg c hc').1, hg, ?_, fun h => ⟨hB.2.1 h, hF.2.2.2.1 h⟩,
      fun h => ⟨hB.2.2 h, hF.2.2.2.2 h⟩⟩
    · rw [hba]; split_ifs with h <;> simp [h]
    · rw [hba]; split_ifs with h <;> simp [h]
    · rw [hfa]; split_ifs with h <;> simp [h]
    · rw [hfa]; split_ifs with h <;> simp [h]
    · intro m hm
      exact ⟨_, (hgm m hm).2, (glass_ahname_cases _).1⟩

/-! ## `rand_range` in binary32 and in exact arithmetic -/

namespace Float32

theorem ilog2_eq_log : ∀ (fuel a : Nat), a ≤ fuel → ilog2 fuel a = Nat.log 2 a := by
  intro fuel
  induction fuel with
  | zero =>
    intro a ha
    have : a = 0 := by omega
    subst this
    simp [ilog2]
  | succ f ih =>
    intro a ha
    unfold ilog2
    by_cases h : a < 2
    · simp [h, Nat.log_of_lt h]
    · simp only [h, if_false]
      rw [ih (a / 2) (by omega), Nat.log_div_base]
      have : 1 ≤ Nat.log 2 a := by
        apply Nat.log_pos (by norm_num) (by omega)
      omega

theorem log_two_pow_mul (j a : Nat) (ha : a ≠ 0) : Nat.log 2 (2 ^ j * a) = Nat.log 2 a + j := by
  induction j with
  | zero => simp
  | succ j ih =>
    have h : 2 ^ (j + 1) * a = 2 ^ j * a * 2 := by ring
    rw [h, Nat.log_mul_base (by norm_num) (by positivity), ih]
    omega

set_option maxRecDepth 100000 in
theorem round_zero_zero : round 149 0 = round 0 0 := by decide

set_option exponentiation.threshold 1000 in
theorem round_scale (k : Int) : round 149 (2 ^ 149 * k) = round 0 k := by
  by_cases hk : k = 0
  · subst hk; simpa using round_zero_zero
  · have ha : k.natAbs ≠ 0 := by simpa using hk
    have habs : (2 ^ 149 * k).natAbs = 2 ^ 149 * k.natAbs := by
      simp [Int.natAbs_mul, Int.natAbs_pow]
    have hneg : (2 ^ 149 * k < 0) ↔ k < 0 := by
      constructor
      · intro h; by_contra h'; push_neg at h'
        have : (0 : Int) ≤ 2 ^ 149 * k := by positivity
        omega
      · intro h
        have : (0 : Int) < 2 ^ 149 := by positivity
        exact mul_neg_of_pos_of_neg this h
    unfold round
    simp only [habs, hneg]
    rw [ilog2_eq_log _ _ le_rfl, ilog2_eq_log _ _ le_rfl, log_two_pow_mul 149 _ ha]
    obtain ⟨t, ht⟩ : ∃ t, t = Nat.log 2 k.natAbs - 23 := ⟨_, rfl⟩
    have hshift : max 149 (Nat.log 2 k.natAbs + 149 - 23) = 149 + t := by
      rw [ht]; omega
    have hshift0 : max 0 (Nat.log 2 k.natAbs - 23) = t := by
      rw [ht]; omega
    rw [hshift, hshift0]
    have hp : (2 : Nat) ^ (149 + t) = 2 ^ 149 * 2 ^ t := pow_add 2 149 t
    have hP : 0 < (2 : Nat) ^ 149 := by positivity
    rw [hp, Nat.mul_div_mul_left _ _ hP, Nat.mul_mod_mul_left]
    have hc1 : ∀ r : Nat, (2 * (2 ^ 149 * r) > 2 ^ 149 * 2 ^ t) ↔ (2 * r > 2 ^ t) := by
      intro r
      rw [Nat.mul_left_comm]
      exact Nat.mul_lt_mul_left hP
    have hc2 : ∀ r : Nat, (2 * (2 ^ 149 * r) = 2 ^ 149 * 2 ^ t) ↔ (2 * r = 2 ^ t) := by
      intro r
      rw [Nat.mul_left_comm]
      exact Nat.mul_left_cancel_iff hP
    simp only [hc1, hc2, Nat.add_sub_cancel_left, Nat.sub_zero]

set_option maxRecDepth 100000 in
theorem one_sub_zero : ((1 : Float32) - 0) = finite (2 ^ 149) := by decide

/-- In binary32, `0 + (1 - 0) * r` is `r` for every finite number `r`. -/
theorem zero_add_one_mul (r : Float32) (h : r.valid) : (0 : Float32) + (1 - 0) * r = r := by
  cases r with
  | finite k =>
    rw [one_sub_zero]
    show add (finite 0) (mul (finite (2 ^ 149)) (finite k)) = finite k
    have hk : round 0 k = finite k := h
    simp only [mul, round_scale, hk, add, zero_add]
  | inf s => exact absurd h (by simp [valid])
  | nan => exact absurd h (by simp [valid])

end Float32

theorem rand_range_unit32 (rnd : Nat → Float32 × Nat) (seed : Nat) (h : (rnd seed).1.valid) :
    rand_range rnd 0 1 seed = rnd seed := by
  simp only [rand_range, Float32.zero_add_one_mul _ h]

theorem rand_range_exact {F : Type} [LinearOrderedField F] (rnd : Nat → F × Nat) (min max : F)
    (seed : Nat) (h : min ≤ max) (h0 : 0 ≤ (rnd seed).1) (h1 : (rnd seed).1 ≤ 1) :
    min ≤ (rand_range rnd min max seed).1 ∧ (rand_range rnd min max seed).1 ≤ max := by
  simp only [rand_range]
  constructor
  · nlinarith [mul_nonneg (sub_nonneg.mpr h) h0]
  · nlinarith [mul_nonneg (sub_nonneg.mpr h) (sub_nonneg.mpr h1)]

set_option maxRecDepth 100000 in
/-- C7, as stated, fails in binary32 arithmetic: with `min = -FLT_MAX`, `max = FLT_MAX` and
`rnd` returning 0.5 (all finite numbers, `min <= max`, `0 <= 0.5 <= 1`), `max - min` overflows
and `rand_range( min, max )` is `+inf`, which is not `<= max`. -/
theorem rand_range_overflow :
    Float32.neg Float32.fltMax ≤ Float32.fltMax ∧
    (0 : Float32) ≤ Float32.finite (2 ^ 148) ∧ Float32.finite (2 ^ 148) ≤ (1 : Float32) ∧
    (Float32.finite (2 ^ 148)).valid ∧ (Float32.neg Float32.fltMax).valid ∧ Float32.fltMax.valid ∧
    (rand_range (fun seed => (Float32.finite (2 ^ 148), seed)) (Float32.neg Float32.fltMax)
      Float32.fltMax 0).1 = Float32.inf false ∧
    ¬ ((rand_range (fun seed => (Float32.finite (2 ^ 148), seed)) (Float32.neg Float32.fltMax)
      Float32.fltMax 0).1 ≤ Float32.fltMax) := by
  decide

theorem writes_in_range {F : Type} [LinearOrderedField F] (rnd : Nat → F × Nat) (seed N : Nat)
    (l : List (Nat × F))
    (hl : l = (List.range N).map (fun k => (k, (rand_range rnd 0 1 (seedAfter rnd seed k)).1))) :
    l.length = N ∧ (∀ iv ∈ l, iv.1 < N) ∧
      ((∀ s, 0 ≤ (rnd s).1 ∧ (rnd s).1 ≤ 1) → ∀ iv ∈ l, 0 ≤ iv.2 ∧ iv.2 ≤ 1) := by
  subst hl
  refine ⟨by simp, ?_, ?_⟩
  · intro iv hiv
    simp only [List.mem_map, List.mem_range] at hiv
    obtain ⟨k, hk, rfl⟩ := hiv
    exact hk
  · intro h iv hiv
    simp only [List.mem_map, List.mem_range] at hiv
    obtain ⟨k, _, rfl⟩ := hiv
    exact rand_range_exact rnd 0 1 _ zero_le_one (h _).1 (h _).2

/-- C7, amended: the noise loop of `createContext` writes exactly `64 * 64 * 64 = 262144`
values into the noise buffer (created with the dimensions 64 x 64 x 64), at the element
indices 0, 1, 2, ... in order, none past the end, and the value written at index `k` is the
`k`-th `rand_range( 0, 1 )`.  In exact arithmetic `rand_range( min, max )` lies in
`[min, max]` whenever `min <= max` and `rnd` returns a value in `[0, 1]`, so every noise value
lies in `[0, 1]`.  In binary32 arithmetic `rand_range( 0, 1 )` is exactly the finite number
`rnd` returned, and the noise loop writes exactly the numbers `rnd` returns. -/
theorem noise_fill {F : Type} [LinearOrderedField F] (env : Env F) (w : World F) :
    (∃ w1 noiseBuffer, createContext env w = some ((), w1) ∧
      buffers (newCalls w w1) = [(noiseBuffer, [64, 64, 64])] ∧
      floatWrites noiseBuffer (newCalls w w1) =
        (List.range (64 * 64 * 64)).map
          (fun k => (k, (rand_range env.rnd 0 1 (seedAfter env.rnd w.seed k)).1)) ∧
      (floatWrites noiseBuffer (newCalls w w1)).length = 262144 ∧
      (∀ iv ∈ floatWrites noiseBuffer (newCalls w w1), iv.1 < 64 * 64 * 64) ∧
      ((∀ seed, 0 ≤ (env.rnd seed).1 ∧ (env.rnd seed).1 ≤ 1) →
        ∀ iv ∈ floatWrites noiseBuffer (newCalls w w1), 0 ≤ iv.2 ∧ iv.2 ≤ 1)) ∧
    (∀ (min max : F) (seed : Nat), min ≤ max → 0 ≤ (env.rnd seed).1 → (env.rnd seed).1 ≤ 1 →
      min ≤ (rand_range env.rnd min max seed).1 ∧ (rand_range env.rnd min max seed).1 ≤ max) ∧
    (∀ (rnd : Nat → Float32 × Nat) (seed : Nat), (rnd seed).1.valid →
      rand_range rnd 0 1 seed = rnd seed) ∧
    (∀ (rnd : Nat → Float32 × Nat) (buffer i p : Nat) (w32 : World Float32),
      (∀ seed, (rnd seed).1.valid) →
      ∃ w1, noiseLoop rnd buffer i p w32 = some ((), w1) ∧
        floatWrites buffer (newCalls w32 w1) =
          (List.range i).map (fun k => (p + k, (rnd (seedAfter rnd w32.seed k)).1))) := by
  refine ⟨?_, fun min max seed h h0 h1 => rand_range_exact env.rnd min max seed h h0 h1,
    fun rnd seed h => rand_range_unit32 rnd seed h, ?_⟩
  · simp only [createContext]
    simp only [noiseLoop_bind_apply]
    simp only [bind_apply, pure_apply, call, create, getWorld,
      List.nil_append, List.cons_append, List.append_assoc, Nat.reduceAdd, Nat.add_assoc]
    refine ⟨_, w.next + 6, rfl, ?_⟩
    simp only [newCalls, List.drop_left]
    have h262144 : 64 * 64 * 64 = 262144 := by norm_num
    generalize 64 * 64 * 64 = N at h262144 ⊢
    have key := floatWrites_noiseWrites env.rnd (w.next + 6) N 0 w.seed
    rw [← h262144]
    refine ⟨?_, ?_⟩
    · simp [buffers, filterMap_noiseWrites]
    · have hw : ∀ l : List (Nat × F),
          l = (List.range N).map
            (fun k => (k, (rand_range env.rnd 0 1 (seedAfter env.rnd w.seed k)).1)) →
          l = (List.range N).map
            (fun k => (k, (rand_range env.rnd 0 1 (seedAfter env.rnd w.seed k)).1)) ∧
          l.length = N ∧ (∀ iv ∈ l, iv.1 < N) ∧
          ((∀ s, 0 ≤ (env.rnd s).1 ∧ (env.rnd s).1 ≤ 1) → ∀ iv ∈ l, 0 ≤ iv.2 ∧ iv.2 ≤ 1) :=
        fun l hl => ⟨hl, writes_in_range env.rnd w.seed N l hl⟩
      apply hw
      simp only [floatWrites] at key ⊢
      simp [List.filterMap_append, key]
  · intro rnd buffer i p w32 h
    refine ⟨_, noiseLoop_apply rnd buffer i p w32, ?_⟩
    simp only [newCalls, List.drop_left]
    rw [floatWrites_noiseWrites]
    apply List.map_congr_left
    intro k _
    rw [rand_range_unit32 rnd _ (h _)]

/-! ## The convex hull and its box -/

theorem cos_five_thirds : Real.cos (5 / 6 * Real.pi * 2) = 1 / 2 := by
  have h : (5 / 6 * Real.pi * 2 : ℝ) = 2 * Real.pi - Real.pi / 3 := by ring
  rw [h, Real.cos_two_pi_sub, Real.cos_pi_div_three]

theorem float3_add_def {F : Type} [Add F] (a b : float3 F) :
    a + b = ⟨a.x + b.x, a.y + b.y, a.z + b.z⟩ := rfl

/-- A side plane of the hull, evaluated one radius from the axis in the negative x direction. -/
theorem side_plane_value (θ y : ℝ) :
    planeValue (make_plane Real.sqrt (make_float3 (Real.cos θ) 0 (Real.sin θ))
      (make_float3 (Real.cos θ * 1) 0 (Real.sin θ * 1) + make_float3 (-1.4) 0 (-3.7)))
      (make_float3 (-2.4) y (-3.7)) = -Real.cos θ - 1 := by
  have h1 : Real.cos θ * Real.cos θ + 0 * 0 + Real.sin θ * Real.sin θ = 1 := by
    have := Real.sin_sq_add_cos_sq θ
    nlinarith
  simp only [planeValue, make_plane, normalize, dot, make_float3, make_float4, float3.scale,
    float3_add_def, h1, Real.sqrt_one]
  have := Real.sin_sq_add_cos_sq θ
  ring_nf
  nlinarith

theorem bottom_plane_value (x z : ℝ) :
    planeValue (make_plane Real.sqrt (make_float3 0 (-1) 0)
      (make_float3 0 0.02 0 + make_float3 (-1.4) 0 (-3.7)))
      (make_float3 x 4 z) = -3.98 := by
  have h1 : (0 : ℝ) * 0 + (-1) * (-1) + 0 * 0 = 1 := by norm_num
  simp only [planeValue, make_plane, normalize, dot, make_float3, make_float4, float3.scale,
    float3_add_def, h1, Real.sqrt_one]
  norm_num

theorem top_plane_value :
    planeValue (make_plane Real.sqrt
      (make_float3 (Real.cos (5 / 6 * Real.pi * 2)) 0.7 (Real.sin (5 / 6 * Real.pi * 2)))
      (make_float3 0 3.5 0 + make_float3 (-1.4) 0 (-3.7)))
      (make_float3 (-2.4) 4 (-3.7)) ≤ 0 := by
  simp only [planeValue, make_plane, normalize, dot, make_float3, make_float4, float3.scale,
    float3_add_def, cos_five_thirds]
  obtain ⟨s, hs0, hs⟩ : ∃ s : ℝ, 0 ≤ s ∧ 1 / Real.sqrt (1 / 2 * (1 / 2) + 0.7 * 0.7 +
      Real.sin (5 / 6 * Real.pi * 2) * Real.sin (5 / 6 * Real.pi * 2)) = s :=
    ⟨_, by positivity, rfl⟩
  rw [hs]
  ring_nf
  linarith

set_option maxRecDepth 100000 in
set_option maxHeartbeats 4000000 in
/-- C8, evaluated on the code: over the real numbers and for tutorial number 10,
`createGeometry` writes eight planes to the plane buffer of the convex hull and binds
`chull_bbmin = (-2.4, 0.02, -4.7)` and `chull_bbmax = (-0.4, 3.5, -2.7)`; the point
`(-2.4, 4, -3.7)` satisfies `dot( n, x ) + d <= 0` for all eight planes and lies outside that
box. -/
theorem chull_box_misses_hull (env : Env ℝ) (w : World ℝ) :
    ∃ loc w1 c planes bbmin bbmax,
      createGeometry { env with cos := Real.cos, sin := Real.sin, sqrt := Real.sqrt, pi := Real.pi }
        { w with tutorial_number := 10 } = some (loc, w1) ∧
      loc.chull = some c ∧
      bufferValues (some c) "planes" (newCalls w w1) = [planes] ∧
      (float4Writes planes (newCalls w w1)).map Prod.fst = [0, 1, 2, 3, 4, 5, 6, 7] ∧
      floatValues (some c) "chull_bbmin" (newCalls w w1) = [bbmin] ∧
      floatValues (some c) "chull_bbmax" (newCalls w w1) = [bbmax] ∧
      insideHull ((float4Writes planes (newCalls w w1)).map Prod.snd) (make_float3 (-2.4) 4 (-3.7)) ∧
      ¬ insideBox bbmin bbmax (make_float3 (-2.4) 4 (-3.7)) := by
  simp only [createGeometry, bind_apply, pure_apply, call, create, getWorld, index, planeLoop, fail,
    ↓reduceIte, Option.isSome, List.nil_append, List.cons_append, List.getElem?_cons_zero, List.getElem?_cons_succ,
    List.length_cons, List.length_nil, List.append_assoc, Nat.lt_irrefl, Nat.reduceLT, Nat.reduceAdd, Nat.add_assoc,
    ge_iff_le, Int.reduceLE]
  refine ⟨_, _, w.next + 3, w.next + 6, [-2.4, 0.02, -4.7], [-0.4, 3.5, -2.7], rfl, rfl, ?_⟩
  simp only [newCalls, List.drop_left]
  simp only [bufferValues, floatValues, float4Writes, List.filterMap_cons, List.filterMap_nil,
    Option.some.injEq, Nat.add_right_cancel_iff, and_self, and_true, true_and, ↓reduceIte,
    List.map_cons, List.map_nil, String.reduceEq, and_false, false_and,
    Nat.reduceEqDiff, Nat.cast_ofNat, Nat.cast_zero, Nat.cast_one]
  refine ⟨?_, ?_, ?_, ?_⟩
  · simp only [make_float3]; norm_num
  · simp only [make_float3]; norm_num
  · intro p hp
    simp only [List.mem_cons, List.mem_singleton, List.mem_nil_iff, or_false] at hp
    rcases hp with rfl | rfl | rfl | rfl | rfl | rfl | rfl | rfl
    · rw [side_plane_value]; linarith [Real.neg_one_le_cos (0 / 6 * Real.pi * 2.0)]
    · rw [side_plane_value]; linarith [Real.neg_one_le_cos (1 / 6 * Real.pi * 2.0)]
    · rw [side_plane_value]; linarith [Real.neg_one_le_cos (2 / 6 * Real.pi * 2.0)]
    · rw [side_plane_value]; linarith [Real.neg_one_le_cos (3 / 6 * Real.pi * 2.0)]
    · rw [side_plane_value]; linarith [Real.neg_one_le_cos (4 / 6 * Real.pi * 2.0)]
    · rw [side_plane_value]; linarith [Real.neg_one_le_cos (5 / 6 * Real.pi * 2.0)]
    · have h := bottom_plane_value (-2.4) (-3.7)
      norm_num at h ⊢
      linarith
    · exact top_plane_value
  · simp only [insideBox, float3.toList, make_float3, List.forall₂_cons, List.forall₂_nil_left_iff]
    norm_num

end OptixTutorial
